import Mathlib

/-!
Verification of the executive-dashboard client module
(`modules/importacoes/dashboards/executivo/static/js/dashboard.js`).

The JavaScript source is shallowly embedded: plain data is modelled by
`JSValue` (JavaScript values as far as the dashboard inspects them), pure
functions are translated one-to-one into Lean functions, and the stateful
parts (the TTL cache, the retry loaders, the per-key abort bookkeeping) are
translated into explicit state-passing functions.  JavaScript numbers are
modelled as exact fractions (`JSNum`); every number handled by the code under
study (column orders, timestamps, counters) is exactly representable, and no
claim depends on binary floating-point rounding.
-/

namespace DashboardExec

/-- JavaScript number, modelled as the exact fraction `num / den`.
`den = 0` is not the image of any JavaScript number; the interpretation
`dval` reads it as denominator 1 so that every model value denotes a
rational.  (JSON — the only source of stored column configurations — cannot
produce `NaN` or `Infinity`, so neither is modelled.) -/
structure JSNum where
  num : Int
  den : Nat := 1
deriving DecidableEq, Repr

/-- Denominator as a positive integer (`den = 0` read as 1). -/
def JSNum.dval (n : JSNum) : Int := (max 1 n.den : Nat)

/-- Numeric comparison `a <= b` by cross-multiplication. -/
def JSNum.le (a b : JSNum) : Prop := a.num * b.dval ≤ b.num * a.dval

/-- Numeric comparison `a < b` by cross-multiplication. -/
def JSNum.lt (a b : JSNum) : Prop := a.num * b.dval < b.num * a.dval

/-- Numeric disequality by cross-multiplication. -/
def JSNum.vne (a b : JSNum) : Prop := a.num * b.dval ≠ b.num * a.dval

instance : DecidableRel JSNum.le := fun a b => by unfold JSNum.le; infer_instance
instance : DecidableRel JSNum.lt := fun a b => by unfold JSNum.lt; infer_instance

/-- Embed a natural number as a `JSNum`. -/
def JSNum.ofNat (n : Nat) : JSNum := ⟨(n : Int), 1⟩

/-- JavaScript values, as far as the dashboard module inspects them.
Objects and arrays that the code never looks into are carried as opaque
tags; code that does look inside an object or array is modelled with a
dedicated Lean structure instead (see `Operation`, `ApiResult`, …). -/
inductive JSValue where
  | vUndefined
  | vNull
  | vBool (b : Bool)
  | vNum (n : JSNum)
  | vStr (s : String)
  | vObj (tag : String)
  | vArr (tag : String)
deriving DecidableEq, Repr

/-- JavaScript truthiness (`Boolean(v)`).  `NaN` is not representable (see
`JSNum`), so a number is falsy exactly when it is zero. -/
def truthy : JSValue → Bool
  | .vUndefined => false
  | .vNull => false
  | .vBool b => b
  | .vNum n => n.num != 0
  | .vStr s => s != ""
  | .vObj _ => true
  | .vArr _ => true

/-- JavaScript `typeof v === 'number'`. -/
def isNumberValue : JSValue → Bool
  | .vNum _ => true
  | _ => false

/-- Decimal rendering of a `JSNum`, used by `jsToString`.  Models the result
of JavaScript number-to-string conversion for the (exactly representable)
values this module handles; integers render exactly, fractions render with
up to 20 decimal digits. -/
def JSNum.render (n : JSNum) : String :=
  let d : Int := n.dval
  let q : Int := n.num / d
  let r : Int := n.num % d
  if r = 0 then toString q
  else
    let digits := (List.range 20).foldl
      (fun (acc : String × Int) _ =>
        let (s, rem) := acc
        if rem = 0 then (s, rem)
        else (s ++ toString ((rem * 10) / d), (rem * 10) % d))
      ("", r)
    toString q ++ "." ++ digits.1

/-- JavaScript `String(v)` coercion.  Array contents are opaque in this
model, so arrays render as the empty string (the value JavaScript gives an
empty array); no theorem below inspects the rendering of an array. -/
def jsToString : JSValue → String
  | .vUndefined => "undefined"
  | .vNull => "null"
  | .vBool b => cond b "true" "false"
  | .vNum n => n.render
  | .vStr s => s
  | .vObj _ => "[object Object]"
  | .vArr _ => ""

/-! ## Column registry (`AVAILABLE_COLUMNS`, dashboard.js lines 30–92) -/

/-- One entry of the static column registry `AVAILABLE_COLUMNS`.
`showInConfig` and `sortable` are `Option Bool` because most registry
entries simply omit them in the source (reading them yields `undefined`). -/
structure ColumnDef where
  id : String
  label : String
  visible : Bool
  fixed : Bool
  showInConfig : Option Bool := none
  sortable : Option Bool := none
  sortField : String
  category : String
  order : JSNum
deriving DecidableEq, Repr

/-- The registry `AVAILABLE_COLUMNS`, transcribed field by field from the
source (order `8.5` is the fraction `17/2`). -/
def AVAILABLE_COLUMNS : List ColumnDef := [
  { id := "acoes", label := "Ações", visible := true, fixed := true,
    showInConfig := some false, sortable := some false, sortField := "acoes",
    category := "Identificação", order := ⟨0, 1⟩ },
  { id := "ref_importador", label := "Ref. Importador", visible := true, fixed := false,
    sortField := "ref_importador", category := "Identificação", order := ⟨1, 1⟩ },
  { id := "importador", label := "Importador", visible := true, fixed := false,
    sortField := "importador", category := "Identificação", order := ⟨2, 1⟩ },
  { id := "data_abertura", label := "Data Abertura", visible := true, fixed := false,
    sortField := "data_abertura", category := "Informações Principais", order := ⟨3, 1⟩ },
  { id := "exportador", label := "Exportador / Fornecedor", visible := true, fixed := false,
    sortField := "exportador_fornecedor", category := "Informações Principais", order := ⟨4, 1⟩ },
  { id := "modal", label := "Modal", visible := true, fixed := false,
    sortField := "modal", category := "Informações Principais", order := ⟨5, 1⟩ },
  { id := "status", label := "Status", visible := true, fixed := false,
    sortField := "status_sistema", category := "Informações Principais", order := ⟨6, 1⟩ },
  { id := "custos", label := "Custos", visible := true, fixed := false,
    sortField := "custo_total", category := "Informações Financeiras", order := ⟨7, 1⟩ },
  { id := "despesas", label := "Despesas Detalhadas", visible := false, fixed := false,
    sortable := some false, sortField := "despesas",
    category := "Informações Financeiras", order := ⟨21, 1⟩ },
  { id := "data_chegada", label := "Previsão Chegada", visible := true, fixed := false,
    sortField := "data_chegada", category := "Datas e Prazos", order := ⟨8, 1⟩ },
  { id := "presenca_carga", label := "Presença Carga", visible := false, fixed := false,
    sortField := "presenca_carga", category := "Datas e Prazos", order := ⟨17, 2⟩ },
  { id := "data_embarque", label := "Data Embarque", visible := false, fixed := false,
    sortField := "data_embarque", category := "Datas e Prazos", order := ⟨9, 1⟩ },
  { id := "transit_time", label := "Transit Time", visible := false, fixed := false,
    sortField := "transit_time", category := "Datas e Prazos", order := ⟨10, 1⟩ },
  { id := "data_registro", label := "Data Registro", visible := false, fixed := false,
    sortField := "data_registro", category := "Datas e Prazos", order := ⟨11, 1⟩ },
  { id := "mercadoria", label := "Mercadoria", visible := true, fixed := false,
    sortField := "mercadoria", category := "Carga e Mercadoria", order := ⟨12, 1⟩ },
  { id := "container", label := "Container", visible := false, fixed := false,
    sortField := "__container_sort", category := "Carga e Mercadoria", order := ⟨13, 1⟩ },
  { id := "peso_bruto", label := "Peso Bruto", visible := false, fixed := false,
    sortField := "peso_bruto", category := "Carga e Mercadoria", order := ⟨14, 1⟩ },
  { id := "produtos", label := "Produtos", visible := false, fixed := false,
    sortable := some false, sortField := "produtos",
    category := "Carga e Mercadoria", order := ⟨20, 1⟩ },
  { id := "urf", label := "URF", visible := true, fixed := false,
    sortField := "urf_despacho_normalizado", category := "Despacho Aduaneiro", order := ⟨15, 1⟩ },
  { id := "numero_di", label := "Número DI", visible := false, fixed := false,
    sortField := "numero_di", category := "Despacho Aduaneiro", order := ⟨16, 1⟩ },
  { id := "canal", label := "Canal", visible := false, fixed := false,
    sortField := "canal", category := "Despacho Aduaneiro", order := ⟨17, 1⟩ },
  { id := "pais", label := "País", visible := false, fixed := false,
    sortField := "pais", category := "Informações Complementares", order := ⟨18, 1⟩ },
  { id := "data_desova", label := "Data Desova (ETB)", visible := false, fixed := false,
    sortable := some false, sortField := "data_desova",
    category := "Armazenagem", order := ⟨22, 1⟩ },
  { id := "limite_primeiro_periodo", label := "Limite 1º Período", visible := false, fixed := false,
    sortable := some false, sortField := "limite_primeiro_periodo",
    category := "Armazenagem", order := ⟨23, 1⟩ },
  { id := "limite_segundo_periodo", label := "Limite 2º Período", visible := false, fixed := false,
    sortable := some false, sortField := "limite_segundo_periodo",
    category := "Armazenagem", order := ⟨24, 1⟩ },
  { id := "dias_extras_armazenagem", label := "Dias Extras Armazenagem",
    visible := false, fixed := false,
    sortable := some false, sortField := "dias_extras_armazenagem",
    category := "Armazenagem", order := ⟨25, 1⟩ },
  { id := "valor_despesas_extras", label := "Desp. Extras Armazenagem",
    visible := false, fixed := false,
    sortable := some false, sortField := "valor_despesas_extras",
    category := "Armazenagem", order := ⟨26, 1⟩ },
  { id := "po_cliente", label := "PO Cliente", visible := false, fixed := false,
    sortable := some true, sortField := "po_cliente",
    category := "Kingspan - Pedido", order := ⟨27, 1⟩ },
  { id := "referencia_exportador", label := "Referência Exportador",
    visible := false, fixed := false,
    sortable := some true, sortField := "referencia_exportador",
    category := "Kingspan - Pedido", order := ⟨28, 1⟩ },
  { id := "codigo_produto", label := "Código Produto", visible := false, fixed := false,
    sortable := some true, sortField := "codigo_produto",
    category := "Kingspan - Pedido", order := ⟨29, 1⟩ },
  { id := "filial_codigo", label := "Filial", visible := false, fixed := false,
    sortable := some true, sortField := "filial_codigo",
    category := "Kingspan - Pedido", order := ⟨30, 1⟩ },
  { id := "licenca_importacao", label := "Licença Importação", visible := false, fixed := false,
    sortable := some true, sortField := "licenca_importacao",
    category := "Kingspan - Pedido", order := ⟨31, 1⟩ },
  { id := "freetime", label := "Freetime", visible := false, fixed := false,
    sortable := some true, sortField := "freetime",
    category := "Kingspan - Logística", order := ⟨32, 1⟩ },
  { id := "etb", label := "ETB", visible := false, fixed := false,
    sortable := some true, sortField := "etb",
    category := "Kingspan - Logística", order := ⟨33, 1⟩ },
  { id := "navio", label := "Navio", visible := false, fixed := false,
    sortable := some true, sortField := "navio",
    category := "Kingspan - Logística", order := ⟨34, 1⟩ },
  { id := "armador_agente_trade", label := "Armador/Agente Trade",
    visible := false, fixed := false,
    sortable := some true, sortField := "armador_agente_trade",
    category := "Kingspan - Logística", order := ⟨35, 1⟩ },
  { id := "moeda", label := "Moeda", visible := false, fixed := false,
    sortable := some true, sortField := "moeda",
    category := "Kingspan - Financeiro", order := ⟨36, 1⟩ },
  { id := "total_pedido_moeda_origem", label := "Total Pedido (Moeda Origem)",
    visible := false, fixed := false,
    sortable := some true, sortField := "total_pedido_moeda_origem",
    category := "Kingspan - Financeiro", order := ⟨37, 1⟩ },
  { id := "ptax", label := "PTAX", visible := false, fixed := false,
    sortable := some true, sortField := "ptax",
    category := "Kingspan - Financeiro", order := ⟨38, 1⟩ },
  { id := "incoterm", label := "Incoterm", visible := false, fixed := false,
    sortable := some true, sortField := "incoterm",
    category := "Kingspan - Financeiro", order := ⟨39, 1⟩ }
]

/-- One entry of a stored/persisted column configuration
(`{id, visible, order}`).  `visible` and `order` are arbitrary JavaScript
values: stored data may be stale or malformed.  Entries whose `id` is not a
string can never match a registry id and are therefore not modelled. -/
structure StoredEntry where
  id : String
  visible : JSValue
  order : JSValue
deriving DecidableEq, Repr

/-- Lookup in `new Map(config.map(item => [item.id, item]))`: with duplicate
ids the later entry wins, exactly as `Map` insertion overwrites. -/
def configLookup (config : List StoredEntry) (i : String) : Option StoredEntry :=
  config.foldl (fun acc e => if e.id = i then some e else acc) none

/-- `getDefaultColumnsConfig()` (dashboard.js lines 103–109). -/
def getDefaultColumnsConfig : List StoredEntry :=
  AVAILABLE_COLUMNS.map fun col =>
    { id := col.id,
      visible := .vBool (if col.fixed then true else col.visible),
      order := .vNum col.order }

/-- Numeric sort key of a normalized entry.  Inside
`normalizeColumnsConfig` every entry carries a numeric `order` (a stored
order is kept only when `typeof stored?.order === 'number'`), so the
catch-all branch is never exercised there. -/
def entryOrder (e : StoredEntry) : JSNum :=
  match e.order with
  | .vNum q => q
  | _ => ⟨0, 1⟩

/-- Comparator of the `normalized.sort((a, b) => a.order - b.order)` call:
the sign of `a.order - b.order` orders entries by numeric `order`. -/
def entryLe (a b : StoredEntry) : Prop := JSNum.le (entryOrder a) (entryOrder b)

/-- Strict version of `entryLe`, used only in proofs. -/
def entryLt (a b : StoredEntry) : Prop := JSNum.lt (entryOrder a) (entryOrder b)

instance : DecidableRel entryLe := fun a b => by unfold entryLe; infer_instance
instance : DecidableRel entryLt := fun a b => by unfold entryLt; infer_instance

instance : IsTotal StoredEntry entryLe := by
  constructor
  intro a b
  unfold entryLe JSNum.le
  exact Int.le_total _ _

instance : IsTrans StoredEntry entryLe := by
  constructor
  intro a b c hab hbc
  unfold entryLe JSNum.le at *
  have hpos : ∀ e : StoredEntry, (0 : Int) < (entryOrder e).dval := fun e => by
    unfold JSNum.dval
    exact_mod_cast Nat.lt_of_lt_of_le Nat.zero_lt_one (Nat.le_max_left 1 _)
  nlinarith [hpos a, hpos b, hpos c, hab, hbc]

instance : IsAntisymm StoredEntry entryLt := by
  constructor
  intro a b h₁ h₂
  unfold entryLt JSNum.lt at h₁ h₂
  exact absurd h₁ (not_lt.mpr (le_of_lt h₂))

/-- `normalized.forEach((item, index) => { item.order = index; })`, starting
from index `n`. -/
def reassignOrdersFrom (n : Nat) : List StoredEntry → List StoredEntry
  | [] => []
  | e :: rest => { e with order := .vNum (JSNum.ofNat n) } :: reassignOrdersFrom (n + 1) rest

/-- Reassign `order` to the positional index `0 .. n-1`. -/
def reassignOrders (l : List StoredEntry) : List StoredEntry := reassignOrdersFrom 0 l

/-- The per-column body of the `AVAILABLE_COLUMNS.map` inside
`normalizeColumnsConfig`: `visible` from the stored entry if present
(forced `true` when `fixed`), `order` from the stored entry if numeric,
registry defaults otherwise. -/
def resolveColumn (config : List StoredEntry) (col : ColumnDef) : StoredEntry :=
  match configLookup config col.id with
  | some stored =>
    { id := col.id,
      visible := .vBool (if col.fixed then true else truthy stored.visible),
      order := if isNumberValue stored.order then stored.order else .vNum col.order }
  | none =>
    { id := col.id,
      visible := .vBool (if col.fixed then true else col.visible),
      order := .vNum col.order }

/-- `normalizeColumnsConfig(config)` (dashboard.js lines 111–124):
resolve each registry column against the stored configuration, then
stable-sort by `order` and reassign `order := index`.
`Array.prototype.sort` is a stable sort; `List.insertionSort` with the same
comparator computes the identical permutation. -/
def normalizeColumnsConfig (config : List StoredEntry) : List StoredEntry :=
  reassignOrders ((AVAILABLE_COLUMNS.map (resolveColumn config)).insertionSort entryLe)

/-! ## Cache store (`dashboardCache`, dashboard.js lines 435–472) -/

/-- The four data kinds the cache distinguishes. -/
inductive CacheKind where
  | kpis
  | charts
  | operations
  | filterOptions
deriving DecidableEq, Repr

/-- `dashboardCache.cacheTimeout`: the constant `5 * 60 * 1000` ms (5
minutes).  The source stores it as a property of the cache object literal
and never writes it. -/
def cacheTimeout : Nat := 5 * 60 * 1000

/-- State of the `dashboardCache` object.  The four value slots start as
`null`; `lastUpdate` starts as `null` (`none`). -/
structure CacheState where
  kpis : JSValue := .vNull
  charts : JSValue := .vNull
  operations : JSValue := .vNull
  filterOptions : JSValue := .vNull
  lastUpdate : Option Nat := none
deriving DecidableEq, Repr

/-- The initial cache object. -/
def cacheInit : CacheState := {}

/-- Read the slot for a kind. -/
def CacheState.slot (c : CacheState) : CacheKind → JSValue
  | .kpis => c.kpis
  | .charts => c.charts
  | .operations => c.operations
  | .filterOptions => c.filterOptions

/-- Write the slot for a kind (`this[type] = data`). -/
def CacheState.setSlot (c : CacheState) : CacheKind → JSValue → CacheState
  | .kpis, v => { c with kpis := v }
  | .charts, v => { c with charts := v }
  | .operations, v => { c with operations := v }
  | .filterOptions, v => { c with filterOptions := v }

/-- `dashboardCache.isValid()`:
`this.lastUpdate && (Date.now() - this.lastUpdate) < this.cacheTimeout`.
`now` is the current clock (`Date.now()`).  Natural subtraction truncates
at zero, which matches: a negative JavaScript difference is below the
timeout, and a truncated-to-zero difference is as well. -/
def cacheIsValid (now : Nat) (c : CacheState) : Bool :=
  match c.lastUpdate with
  | none => false
  | some t => now - t < cacheTimeout

/-- `dashboardCache.get(type)`: returns the cached value only when the cache
is valid and the slot holds a truthy value, otherwise `null` (here `none`). -/
def cacheGet (now : Nat) (c : CacheState) (kind : CacheKind) : Option JSValue :=
  if cacheIsValid now c && truthy (c.slot kind) then some (c.slot kind) else none

/-- `dashboardCache.set(type, data)`: store the value and stamp the shared
`lastUpdate` with the current clock. -/
def cacheSet (c : CacheState) (kind : CacheKind) (data : JSValue) (now : Nat) : CacheState :=
  { c.setSlot kind data with lastUpdate := some now }

/-- `dashboardCache.invalidate()` (dashboard.js lines 449–455): sets
`kpis`, `charts`, `operations` and `lastUpdate` to `null`.  Note that the
source does not touch `filterOptions`. -/
def cacheInvalidate (c : CacheState) : CacheState :=
  { c with kpis := .vNull, charts := .vNull, operations := .vNull, lastUpdate := none }

/-! ## Request de-duplication (`fetchWithAbort`, dashboard.js lines 2218–2231) -/

/-- Bookkeeping state of `requestControllers`: the current `AbortController`
per logical key (controllers are identified by serial numbers), plus the set
of controllers whose `abort()` has been called. -/
structure AbortState where
  controllers : List (String × Nat) := []
  nextId : Nat := 0
  aborted : List Nat := []
deriving DecidableEq, Repr

/-- Current controller registered for a key, if any. -/
def lookupController (st : AbortState) (key : String) : Option Nat :=
  (st.controllers.find? (fun p => p.1 == key)).map (·.2)

/-- `fetchWithAbort(key, url, options)`: abort the controller currently
registered for `key` (if any), register a fresh controller for `key`, and
issue the fetch with that controller's signal.  The network call itself is
abstracted away (its outcome is supplied to the loaders as a parameter);
the returned number identifies the controller attached to the new request.
The `try`/`catch` fallback for environments without `AbortController` is
not modelled. -/
def fetchWithAbort (key : String) (st : AbortState) : AbortState × Nat :=
  let st₁ :=
    match lookupController st key with
    | some cid => { st with aborted := cid :: st.aborted }
    | none => st
  let cid := st₁.nextId
  ({ st₁ with
      controllers := (key, cid) :: st₁.controllers.filter (fun p => p.1 != key),
      nextId := cid + 1 },
   cid)

/-! ## Retry loaders (dashboard.js lines 1934–2215)

Each loader runs up to `maxRetries` attempts.  An attempt performs the
fetch and parses the JSON body; both steps are abstracted into an
`FetchOutcome` supplied per attempt number (1-based), covering network
errors, aborts, JSON parse errors (all rejections carry an error message)
and parsed responses.  The UI-update calls (`updateDashboardKPIs`,
`createDashboardChartsWithValidation`, `createEmptyCharts`,
`updateRecentOperationsTable`, `populateFilterOptions`) are recorded in the
state as histories of the values handed to them.  `setTimeout` waits of
`1000 * attempt` ms advance the modelled clock. -/

/-- Parsed JSON body of an API response, with exactly the properties the
loaders read.  Absent properties are `undefined`. -/
structure ApiResult where
  success : JSValue := .vUndefined
  error : JSValue := .vUndefined
  kpis : JSValue := .vUndefined
  charts : JSValue := .vUndefined
  operations : JSValue := .vUndefined
  operations_all : JSValue := .vUndefined
  options : JSValue := .vUndefined
  can_view_materials : JSValue := .vUndefined
deriving DecidableEq, Repr

/-- Outcome of one attempt's `fetch` + `response.json()`. -/
inductive FetchOutcome where
  | ok (result : ApiResult)
  | exn (message : String)
deriving DecidableEq, Repr

/-- Observable dashboard state threaded through the loaders. -/
structure DashState where
  cache : CacheState := cacheInit
  now : Nat := 0
  fetchCount : Nat := 0
  uiKpis : List JSValue := []
  chartsRendered : List JSValue := []
  emptyChartsCalls : Nat := 0
  uiOperations : List JSValue := []
  uiFilterOptions : List JSValue := []
  canViewMaterials : Option JSValue := none
deriving DecidableEq, Repr

/-- `new Error(result.error || '<default>')`: message of the thrown error. -/
def errMessage (e : JSValue) (defaultMsg : String) : String :=
  if truthy e then jsToString e else defaultMsg

/-- The `{ materiais: [], clientes: [], modais: [], canais: [] }` literal
passed to `populateFilterOptions` when retries are exhausted with an empty
cache.  Its contents are never inspected, so it is carried as a tagged
object. -/
def emptyFilterOptionsValue : JSValue := .vObj "empty-filter-options"

/-- The `[]` literal passed to `updateRecentOperationsTable` when retries
are exhausted with an empty cache. -/
def emptyOperationsValue : JSValue := .vArr "[]"

instance {ε α : Type} [DecidableEq ε] [DecidableEq α] : DecidableEq (Except ε α) := fun x y =>
  match x, y with
  | .ok a, .ok b => decidable_of_iff (a = b) (by simp)
  | .error e, .error f => decidable_of_iff (e = f) (by simp)
  | .ok _, .error _ => isFalse (by intro h; cases h)
  | .error _, .ok _ => isFalse (by intro h; cases h)

/-- An attempt outcome satisfying `result.success && result.kpis` — the
success test of the KPIs loader. -/
def kpisSuccess : FetchOutcome → Bool
  | .ok r => truthy r.success && truthy r.kpis
  | .exn _ => false

/-- Success test of the charts loader (`result.success && result.charts`). -/
def chartsSuccess : FetchOutcome → Bool
  | .ok r => truthy r.success && truthy r.charts
  | .exn _ => false

/-- Success test of the operations loader
(`result.success && result.operations`). -/
def operationsSuccess : FetchOutcome → Bool
  | .ok r => truthy r.success && truthy r.operations
  | .exn _ => false

/-- Success test of the filter-options loader
(`result.success && result.options`). -/
def filterOptionsSuccess : FetchOutcome → Bool
  | .ok r => truthy r.success && truthy r.options
  | .exn _ => false

/-- Message of the error a failed KPIs attempt throws. -/
def kpisFailMsg : FetchOutcome → String
  | .exn e => e
  | .ok r => errMessage r.error "KPIs não encontrados"

/-- Message of the error a failed charts attempt throws. -/
def chartsFailMsg : FetchOutcome → String
  | .exn e => e
  | .ok r => errMessage r.error "Gráficos não encontrados"

/-- Message of the error a failed operations attempt throws. -/
def operationsFailMsg : FetchOutcome → String
  | .exn e => e
  | .ok r => errMessage r.error "Operações não encontradas"

/-- Message of the error a failed filter-options attempt throws. -/
def filterOptionsFailMsg : FetchOutcome → String
  | .exn e => e
  | .ok r => errMessage r.error "Opções de filtros não encontradas"

/-- Total `setTimeout` delay before attempt `a` (the loader sleeps
`1000 * k` ms after failed attempt `k`): `sum of 1000 * k for k < a`. -/
def delaysUpTo : Nat → Nat
  | 0 => 0
  | a + 1 => delaysUpTo a + 1000 * a

/-- Loop body of `loadDashboardKPIsWithRetry` (dashboard.js lines
1934–1966).  `fuel` counts the remaining loop iterations
(`maxRetries - attempt + 1`); the source's `for` loop always terminates
because `attempt` grows.  The success check is
`result.success && result.kpis`; on the last failed attempt the loader
falls back to `dashboardCache.get('kpis')` and otherwise rethrows. -/
def loadKPIsGo (outcomes : Nat → FetchOutcome) (maxRetries : Nat) :
    Nat → Nat → DashState → DashState × Except String Unit
  | 0, _, st => (st, .ok ())
  | fuel + 1, attempt, st =>
    let st := { st with fetchCount := st.fetchCount + 1 }
    let onFail := fun (e : String) =>
      if attempt = maxRetries then
        match cacheGet st.now st.cache .kpis with
        | some cached => ({ st with uiKpis := st.uiKpis ++ [cached] }, Except.ok ())
        | none => (st, Except.error e)
      else
        loadKPIsGo outcomes maxRetries fuel (attempt + 1)
          { st with now := st.now + 1000 * attempt }
    match outcomes attempt with
    | .exn e => onFail e
    | .ok r =>
      if truthy r.success && truthy r.kpis then
        ({ st with
            cache := cacheSet st.cache .kpis r.kpis st.now,
            uiKpis := st.uiKpis ++ [r.kpis] },
         Except.ok ())
      else
        onFail (errMessage r.error "KPIs não encontrados")

/-- `loadDashboardKPIsWithRetry(maxRetries = 2)`. -/
def loadDashboardKPIsWithRetry (outcomes : Nat → FetchOutcome) (maxRetries : Nat := 2)
    (st : DashState) : DashState × Except String Unit :=
  loadKPIsGo outcomes maxRetries maxRetries 1 st

/-- Loop body of `loadDashboardChartsWithRetry` (dashboard.js lines
2026–2064).  The success check is `result.success && result.charts`; a
defined `result.can_view_materials` is stored on the window; on the last
failed attempt the loader falls back to the cached charts and otherwise
calls `createEmptyCharts()` and rethrows. -/
def loadChartsGo (outcomes : Nat → FetchOutcome) (maxRetries : Nat) :
    Nat → Nat → DashState → DashState × Except String Unit
  | 0, _, st => (st, .ok ())
  | fuel + 1, attempt, st =>
    let st := { st with fetchCount := st.fetchCount + 1 }
    let onFail := fun (e : String) =>
      if attempt = maxRetries then
        match cacheGet st.now st.cache .charts with
        | some cached => ({ st with chartsRendered := st.chartsRendered ++ [cached] }, Except.ok ())
        | none => ({ st with emptyChartsCalls := st.emptyChartsCalls + 1 }, Except.error e)
      else
        loadChartsGo outcomes maxRetries fuel (attempt + 1)
          { st with now := st.now + 1000 * attempt }
    match outcomes attempt with
    | .exn e => onFail e
    | .ok r =>
      if truthy r.success && truthy r.charts then
        let st :=
          if r.can_view_materials ≠ .vUndefined then
            { st with canViewMaterials := some r.can_view_materials }
          else st
        ({ st with
            cache := cacheSet st.cache .charts r.charts st.now,
            chartsRendered := st.chartsRendered ++ [r.charts] },
         Except.ok ())
      else
        onFail (errMessage r.error "Gráficos não encontrados")

/-- `loadDashboardChartsWithRetry(maxRetries = 2)`. -/
def loadDashboardChartsWithRetry (outcomes : Nat → FetchOutcome) (maxRetries : Nat := 2)
    (st : DashState) : DashState × Except String Unit :=
  loadChartsGo outcomes maxRetries maxRetries 1 st

/-- Loop body of `loadRecentOperationsWithRetry` (dashboard.js lines
2138–2171).  The success check is `result.success && result.operations`;
the value cached and rendered is `result.operations_all || result.operations`;
on the last failed attempt the loader falls back to the cached operations
and otherwise renders an empty table (`updateRecentOperationsTable([])`)
and rethrows. -/
def loadOperationsGo (outcomes : Nat → FetchOutcome) (maxRetries : Nat) :
    Nat → Nat → DashState → DashState × Except String Unit
  | 0, _, st => (st, .ok ())
  | fuel + 1, attempt, st =>
    let st := { st with fetchCount := st.fetchCount + 1 }
    let onFail := fun (e : String) =>
      if attempt = maxRetries then
        match cacheGet st.now st.cache .operations with
        | some cached => ({ st with uiOperations := st.uiOperations ++ [cached] }, Except.ok ())
        | none =>
          ({ st with uiOperations := st.uiOperations ++ [emptyOperationsValue] }, Except.error e)
      else
        loadOperationsGo outcomes maxRetries fuel (attempt + 1)
          { st with now := st.now + 1000 * attempt }
    match outcomes attempt with
    | .exn e => onFail e
    | .ok r =>
      if truthy r.success && truthy r.operations then
        let operationsToUse := if truthy r.operations_all then r.operations_all else r.operations
        ({ st with
            cache := cacheSet st.cache .operations operationsToUse st.now,
            uiOperations := st.uiOperations ++ [operationsToUse] },
         Except.ok ())
      else
        onFail (errMessage r.error "Operações não encontradas")

/-- `loadRecentOperationsWithRetry(maxRetries = 2)`. -/
def loadRecentOperationsWithRetry (outcomes : Nat → FetchOutcome) (maxRetries : Nat := 2)
    (st : DashState) : DashState × Except String Unit :=
  loadOperationsGo outcomes maxRetries maxRetries 1 st

/-- Loop body of `loadFilterOptionsWithRetry` (dashboard.js lines
2176–2215).  The success check is `result.success && result.options`; on
the last failed attempt the loader falls back to the cached options and
otherwise populates the filters with the empty option lists and rethrows. -/
def loadFilterOptionsGo (outcomes : Nat → FetchOutcome) (maxRetries : Nat) :
    Nat → Nat → DashState → DashState × Except String Unit
  | 0, _, st => (st, .ok ())
  | fuel + 1, attempt, st =>
    let st := { st with fetchCount := st.fetchCount + 1 }
    let onFail := fun (e : String) =>
      if attempt = maxRetries then
        match cacheGet st.now st.cache .filterOptions with
        | some cached =>
          ({ st with uiFilterOptions := st.uiFilterOptions ++ [cached] }, Except.ok ())
        | none =>
          ({ st with uiFilterOptions := st.uiFilterOptions ++ [emptyFilterOptionsValue] },
           Except.error e)
      else
        loadFilterOptionsGo outcomes maxRetries fuel (attempt + 1)
          { st with now := st.now + 1000 * attempt }
    match outcomes attempt with
    | .exn e => onFail e
    | .ok r =>
      if truthy r.success && truthy r.options then
        ({ st with
            cache := cacheSet st.cache .filterOptions r.options st.now,
            uiFilterOptions := st.uiFilterOptions ++ [r.options] },
         Except.ok ())
      else
        onFail (errMessage r.error "Opções de filtros não encontradas")

/-- `loadFilterOptionsWithRetry(maxRetries = 2)`. -/
def loadFilterOptionsWithRetry (outcomes : Nat → FetchOutcome) (maxRetries : Nat := 2)
    (st : DashState) : DashState × Except String Unit :=
  loadFilterOptionsGo outcomes maxRetries maxRetries 1 st

/-! ## String and number utilities used by the rendering helpers -/

/-- The apostrophe character (`U+0027`). -/
def apos : Char := Char.ofNat 39

/-- JavaScript `String.prototype.trim` (ASCII whitespace suffices for the
values this module handles). -/
def jsTrim (s : String) : String :=
  String.mk (((s.data.dropWhile Char.isWhitespace).reverse.dropWhile Char.isWhitespace).reverse)

/-- JavaScript `String.prototype.toUpperCase`, modelled for ASCII letters
(the accented uppercase comparisons in `getModalBadge` are never exercised
by the theorems below). -/
def asciiUpper (s : String) : String := String.mk (s.data.map Char.toUpper)

/-- Substring test on character lists (`String.prototype.includes`). -/
def listContainsSub : List Char → List Char → Bool
  | l, sub =>
    if sub.isPrefixOf l then true
    else
      match l with
      | [] => false
      | _ :: t => listContainsSub t sub

/-- `String.prototype.includes`. -/
def containsSubstr (s sub : String) : Bool := listContainsSub s.data sub.data

/-- `Array.prototype.join(sep)`. -/
def joinSep (sep : String) : List String → String
  | [] => ""
  | h :: t => t.foldl (fun acc x => acc ++ sep ++ x) h

/-- Left-pad with zeros to the given width. -/
def padLeftZeros (s : String) (width : Nat) : String :=
  String.mk (List.replicate (width - s.length) '0') ++ s

/-- JavaScript `a || b`. -/
def jsOr (a b : JSValue) : JSValue := if truthy a then a else b

/-- Parse a run of decimal digits. -/
def parseDigits (cs : List Char) : Option Nat :=
  if cs.isEmpty then none
  else if cs.all Char.isDigit then
    some (cs.foldl (fun acc c => acc * 10 + (c.toNat - 48)) 0)
  else none

/-- `Number('…')` on a trimmed decimal string: optional sign, digits,
optional fraction.  The empty string converts to `0`.  Hexadecimal and
exponent forms are not modelled (never produced by this module's data). -/
def parseJsNumberString (s : String) : Option JSNum :=
  let t := (jsTrim s).data
  if t.isEmpty then some ⟨0, 1⟩
  else
    let (sign, body) :=
      match t with
      | '-' :: rest => ((-1 : Int), rest)
      | '+' :: rest => ((1 : Int), rest)
      | _ => ((1 : Int), t)
    let intPart := body.takeWhile Char.isDigit
    let rest := body.drop intPart.length
    match rest with
    | [] =>
      match parseDigits intPart with
      | some n => some ⟨sign * n, 1⟩
      | none => none
    | '.' :: fracPart =>
      if fracPart.all Char.isDigit && !(intPart.isEmpty && fracPart.isEmpty) then
        let ip := (parseDigits intPart).getD 0
        let fp := (parseDigits fracPart).getD 0
        some ⟨sign * (ip * 10 ^ fracPart.length + fp), 10 ^ fracPart.length⟩
      else none
    | _ => none

/-- JavaScript `Number(v)` coercion; `none` is `NaN`.  Array contents are
opaque in this model, so arrays convert to `NaN`; no theorem converts an
array to a number. -/
def jsNumber : JSValue → Option JSNum
  | .vNum n => some n
  | .vStr s => parseJsNumberString s
  | .vBool b => some ⟨cond b 1 0, 1⟩
  | .vNull => some ⟨0, 1⟩
  | .vUndefined => none
  | .vObj _ => none
  | .vArr _ => none

/-- JavaScript `parseFloat(v)`: coerce to string, skip leading whitespace,
parse the longest decimal prefix; `none` is `NaN`. -/
def parseFloatJS (v : JSValue) : Option JSNum :=
  let t := (jsToString v).data.dropWhile Char.isWhitespace
  let (sign, body) :=
    match t with
    | '-' :: rest => ((-1 : Int), rest)
    | '+' :: rest => ((1 : Int), rest)
    | _ => ((1 : Int), t)
  let intPart := body.takeWhile Char.isDigit
  let afterInt := body.drop intPart.length
  let fracPart :=
    match afterInt with
    | '.' :: rest => rest.takeWhile Char.isDigit
    | _ => []
  if intPart.isEmpty && fracPart.isEmpty then none
  else
    let ip := (parseDigits intPart).getD 0
    let fp := (parseDigits fracPart).getD 0
    some ⟨sign * (ip * 10 ^ fracPart.length + fp), 10 ^ fracPart.length⟩

/-- Exact addition of `JSNum` fractions (`+=` on accumulated expense
values; binary64 rounding is not modelled). -/
def JSNum.add (a b : JSNum) : JSNum :=
  ⟨a.num * b.dval + b.num * a.dval, (a.dval * b.dval).toNat⟩

/-- `v > 0` after JavaScript numeric coercion (`NaN > 0` is false). -/
def jsGtZero (v : JSValue) : Bool :=
  match jsNumber v with
  | some q => 0 < q.num
  | none => false

/-- `round(q * 10^decimals)`, ties away from zero rounded upward (the exact
tie-breaking of `toLocaleString`/`toFixed` is not modelled; no theorem
evaluates a tie). -/
def roundedScaled (q : JSNum) (decimals : Nat) : Int :=
  let x := q.num * (10 : Int) ^ decimals
  let d := q.dval
  Int.fdiv (2 * x + d) (2 * d)

/-- Group an (unsigned) digit string with `.` thousands separators, as the
`pt-BR` locale does. -/
def groupThousands (s : String) : String :=
  let rec go : List Char → List Char
    | c₁ :: c₂ :: c₃ :: c₄ :: rest => c₁ :: c₂ :: c₃ :: '.' :: go (c₄ :: rest)
    | l => l
  String.mk ((go s.data.reverse).reverse)

/-- `Number.prototype.toLocaleString('pt-BR', …)` with a fixed number of
fraction digits: `.`-grouped integer part, `,` decimal separator. -/
def ptBrNumber (q : JSNum) (decimals : Nat) : String :=
  let n := roundedScaled q decimals
  let m := n.natAbs
  let scale := 10 ^ decimals
  let ipStr := groupThousands (toString (m / scale))
  let s := if decimals = 0 then ipStr else ipStr ++ "," ++ padLeftZeros (toString (m % scale)) decimals
  if n < 0 then "-" ++ s else s

/-- `formatNumber(value, decimals)` (dashboard.js lines 2763–2769). -/
def formatNumber (value : JSNum) (decimals : Nat) : String :=
  if value.num = 0 then "0" else ptBrNumber value decimals

/-- `formatCurrency(value)` (dashboard.js lines 2786–2792).  The `pt-BR`
currency rendering of the non-zero branch is modelled with an ASCII space
after `R$` (the source's own zero literal `'R$ 0,00'` uses one). -/
def formatCurrency (value : JSValue) : String :=
  if truthy value = false then "R$ 0,00"
  else
    match jsNumber value with
    | some q => if q.num < 0 then "-R$ " ++ ptBrNumber ⟨-q.num, q.den⟩ 2 else "R$ " ++ ptBrNumber q 2
    | none => "R$ NaN"

/-- `Number(v).toFixed(4)` (the `ptax` column). -/
def toFixed4 (v : JSValue) : String :=
  match jsNumber v with
  | some q =>
    let n := roundedScaled q 4
    let m := n.natAbs
    let s := toString (m / 10 ^ 4) ++ "." ++ padLeftZeros (toString (m % 10 ^ 4)) 4
    if n < 0 then "-" ++ s else s
  | none => "NaN"

/-! ## `escapeHtml` (dashboard.js lines 208–218) -/

/-- One global single-character replacement
(`String.prototype.replace(/c/g, rep)`). -/
def replaceAllChar (l : List Char) (c : Char) (rep : List Char) : List Char :=
  l.flatMap fun a => if a = c then rep else [a]

/-- `escapeHtml(value)`: the empty string for `null`/`undefined`, otherwise
`String(value)` passed through the five sequential global replacements of
the source, in source order (`&`, `<`, `>`, `"`, then the apostrophe). -/
def escapeHtml (value : JSValue) : String :=
  match value with
  | .vNull => ""
  | .vUndefined => ""
  | v =>
    let l := (jsToString v).data
    let l := replaceAllChar l '&' "&amp;".data
    let l := replaceAllChar l '<' "&lt;".data
    let l := replaceAllChar l '>' "&gt;".data
    let l := replaceAllChar l '"' "&quot;".data
    let l := replaceAllChar l apos "&#39;".data
    String.mk l

/-- Per-character view of the composed replacement chain (proof helper). -/
def escapeChar (c : Char) : List Char :=
  if c = '&' then "&amp;".data
  else if c = '<' then "&lt;".data
  else if c = '>' then "&gt;".data
  else if c = '"' then "&quot;".data
  else if c = apos then "&#39;".data
  else [c]

/-- The five HTML entities `escapeHtml` can produce. -/
def ampEntities : List (List Char) :=
  ["&amp;".data, "&lt;".data, "&gt;".data, "&quot;".data, "&#39;".data]

/-- No `<`, `>`, `"` or apostrophe anywhere in the list. -/
def noDangerousChars (l : List Char) : Bool :=
  l.all fun c => !(c == '<' || c == '>' || c == '"' || c == apos)

/-- Prefix test (`beginsWith pat l` holds iff `pat` is a prefix of `l`). -/
def beginsWith : List Char → List Char → Bool
  | [], _ => true
  | _ :: _, [] => false
  | p :: ps, c :: cs => (p == c) && beginsWith ps cs

/-- Every `&` in the list starts one of the five entities of `ampEntities`. -/
def ampWellFormed : List Char → Bool
  | [] => true
  | c :: rest =>
    ((c != '&') || ampEntities.any (fun e => beginsWith e (c :: rest))) && ampWellFormed rest

/-! ## Operation records and the row renderer
(`recentOperationsTable.renderRow`, dashboard.js lines 1212–1427) -/

/-- One element of `operation.produtos_processo`: either not an object
(skipped by `summarizeProdutos`) or an object with the fields the summary
reads. -/
inductive ProdutoItem where
  | nonObject (v : JSValue)
  | obj (descricao descricao_produto descricao_adicao ncm ncm_sh unidade_medida
      unidade quantidade qtd quantidade_declarada : JSValue)
deriving DecidableEq, Repr

/-- One element of `operation.despesas_processo`.  Elements are objects in
every payload this code receives (a non-object element would make the
source throw inside `processExpensesByCategory`'s `try` and is not
modelled). -/
structure Despesa where
  categoria_custo : JSValue := .vUndefined
  valor_custo : JSValue := .vUndefined
deriving DecidableEq, Repr

/-- Result shape of `summarizeProdutos`/`summarizeDespesas`
(`{text, entries?, tooltip?}`). -/
structure SummaryData where
  text : String
  entries : List String := []
  tooltip : Option String := none
deriving DecidableEq, Repr

/-- Result shape of `processExpensesByCategory`
(`{categorias, total, categoriasAjustadas}`; `categoriasAjustadas` is the
same object as `categorias` and is not duplicated here).  `categorias` is
an insertion-ordered string-keyed object. -/
structure ExpenseData where
  categorias : List (String × JSNum) := []
  total : JSNum := ⟨0, 1⟩
deriving DecidableEq, Repr

/-- A field of `operation.container`/`numero_container`/`conteiner`/
`conteineres`: absent, an array, or a scalar value. -/
inductive ContainerVal where
  | cUndefined
  | cArr (items : List JSValue)
  | cVal (v : JSValue)
deriving DecidableEq, Repr

/-- Truthiness of a `ContainerVal` (arrays are truthy even when empty). -/
def ContainerVal.truthyC : ContainerVal → Bool
  | .cUndefined => false
  | .cArr _ => true
  | .cVal v => truthy v

/-- `a || b` over container fields. -/
def containerOr (a b : ContainerVal) : ContainerVal := if a.truthyC then a else b

/-- An `OperationRecord` as read by the row renderer.  Every field defaults
to absent (`undefined`); `produtos_processo`, `despesas_processo` and
`armazenagem_data` are structured fields (`none` = not an array / not an
object), and the two `__`-prefixed fields are the memoized derived values
the renderer writes onto records. -/
structure Operation where
  ref_importador : JSValue := .vUndefined
  importador : JSValue := .vUndefined
  exportador_fornecedor : JSValue := .vUndefined
  status_sistema : JSValue := .vUndefined
  status_processo : JSValue := .vUndefined
  status : JSValue := .vUndefined
  custo_total_view : JSValue := .vUndefined
  custo_total : JSValue := .vUndefined
  urf_despacho_normalizado : JSValue := .vUndefined
  urf_despacho : JSValue := .vUndefined
  canal : JSValue := .vUndefined
  canal_parametrizado : JSValue := .vUndefined
  data_abertura : JSValue := .vUndefined
  modal : JSValue := .vUndefined
  data_chegada : JSValue := .vUndefined
  presenca_carga : JSValue := .vUndefined
  data_embarque : JSValue := .vUndefined
  transit_time : JSValue := .vUndefined
  transit_time_real : JSValue := .vUndefined
  mercadoria : JSValue := .vUndefined
  peso_bruto : JSValue := .vUndefined
  peso_bruto_kg : JSValue := .vUndefined
  peso_bruto_total : JSValue := .vUndefined
  numero_di : JSValue := .vUndefined
  numero_declaracao : JSValue := .vUndefined
  data_registro : JSValue := .vUndefined
  data_registro_di : JSValue := .vUndefined
  pais : JSValue := .vUndefined
  pais_procedencia_normalizado : JSValue := .vUndefined
  pais_procedencia : JSValue := .vUndefined
  po_cliente : JSValue := .vUndefined
  referencia_exportador : JSValue := .vUndefined
  codigo_produto : JSValue := .vUndefined
  filial_codigo : JSValue := .vUndefined
  licenca_importacao : JSValue := .vUndefined
  freetime : JSValue := .vUndefined
  etb : JSValue := .vUndefined
  navio : JSValue := .vUndefined
  armador_agente_trade : JSValue := .vUndefined
  moeda : JSValue := .vUndefined
  total_pedido_moeda_origem : JSValue := .vUndefined
  ptax : JSValue := .vUndefined
  incoterm : JSValue := .vUndefined
  has_armazenagem_data : JSValue := .vUndefined
  produtos_processo : Option (List ProdutoItem) := none
  despesas_processo : Option (List Despesa) := none
  armazenagem_data : Option (List (String × JSValue)) := none
  container : ContainerVal := .cUndefined
  numero_container : ContainerVal := .cUndefined
  conteiner : ContainerVal := .cUndefined
  conteineres : ContainerVal := .cUndefined
  memoProdutosSummary : Option SummaryData := none
  memoContainerValues : Option (List String) := none
deriving DecidableEq, Repr

/-- The record with every optional field absent. -/
def emptyOperation : Operation := {}

/-- `summarizeProdutos(operation, maxItems = 3)` (dashboard.js lines
220–283): build one label per product object, drop blank ones, and join the
first `maxItems` with a `+k` overflow suffix. -/
def summarizeProdutos (operation : Operation) (maxItems : Nat := 3) : SummaryData :=
  match operation.produtos_processo with
  | none => { text := "-", entries := [] }
  | some produtos =>
    if produtos.isEmpty then { text := "-", entries := [] }
    else
      let entries := produtos.filterMap fun item =>
        match item with
        | .nonObject _ => none
        | .obj descricao descricao_produto descricao_adicao ncm ncm_sh unidade_medida
            unidade quantidade qtd quantidade_declarada =>
          let descricaoS := jsTrim (jsToString (jsOr descricao
            (jsOr descricao_produto (jsOr descricao_adicao (.vStr "")))))
          let ncmS := jsTrim (jsToString (jsOr ncm (jsOr ncm_sh (.vStr ""))))
          let unidadeS := jsTrim (jsToString (jsOr unidade_medida (jsOr unidade (.vStr ""))))
          let quantidadeRaw := jsOr quantidade (jsOr qtd quantidade_declarada)
          let quantidadeQ : Option JSNum :=
            if truthy quantidadeRaw then jsNumber quantidadeRaw else none
          let partes : List String :=
            if descricaoS != "" then [descricaoS]
            else if ncmS != "" then ["NCM " ++ ncmS]
            else []
          let detalhes : List String :=
            (if ncmS != "" && descricaoS != "" && !containsSubstr descricaoS ncmS then
              ["NCM " ++ ncmS]
            else []) ++
            (match quantidadeQ with
             | some q =>
               let casasDecimais := if q.num % q.dval = 0 then 0 else 2
               let quantidadeFormatada := formatNumber q casasDecimais
               [jsTrim (quantidadeFormatada ++ (if unidadeS != "" then " " ++ unidadeS else ""))]
             | none => if unidadeS != "" then [unidadeS] else [])
          let partes :=
            if detalhes.isEmpty then partes
            else partes ++ ["(" ++ joinSep " • " detalhes ++ ")"]
          let label := jsTrim (joinSep " " partes)
          if label != "" then some label else none
      if entries.isEmpty then { text := "-", entries := [] }
      else
        let displayEntries := entries.take maxItems
        let suffix :=
          if entries.length > maxItems then " +" ++ toString (entries.length - maxItems) else ""
        { text := jsTrim (joinSep ", " displayEntries ++ suffix),
          tooltip := some (joinSep "\n" entries),
          entries := entries }

/-- Accumulate one expense value into the insertion-ordered category map
(`categorias[categoria] += valor`, initializing absent keys to `0`). -/
def addToCategory (l : List (String × JSNum)) (k : String) (v : JSNum) : List (String × JSNum) :=
  if l.any (·.1 = k) then l.map (fun p => if p.1 = k then (p.1, p.2.add v) else p)
  else l ++ [(k, v)]

/-- `processExpensesByCategory(despesasProcesso)` (dashboard.js lines
3309–3371): group `parseFloat(valor_custo) || 0` by
`categoria_custo || 'Outros Custos'`. -/
def processExpensesByCategory (despesasProcesso : List Despesa) : ExpenseData :=
  despesasProcesso.foldl
    (fun acc despesa =>
      let categoria :=
        if truthy despesa.categoria_custo then jsToString despesa.categoria_custo
        else "Outros Custos"
      let valor : JSNum :=
        match parseFloatJS despesa.valor_custo with
        | some q => if q.num = 0 then ⟨0, 1⟩ else q
        | none => ⟨0, 1⟩
      { categorias := addToCategory acc.categorias categoria valor,
        total := acc.total.add valor })
    {}

/-- Comparator of `sort(([, a], [, b]) => Number(b) - Number(a))`:
descending by value, stable. -/
def despesaGe (a b : String × JSNum) : Prop := JSNum.le b.2 a.2

instance : DecidableRel despesaGe := fun a b => by unfold despesaGe; infer_instance

/-- `summarizeDespesas(expenseData, operation, maxItems = 3)` (dashboard.js
lines 285–317). -/
def summarizeDespesas (expenseData : Option ExpenseData) (operation : Operation)
    (maxItems : Nat := 3) : SummaryData :=
  let data : Option ExpenseData :=
    match expenseData with
    | some d => some d
    | none =>
      match operation.despesas_processo with
      | some l => if l.isEmpty then none else some (processExpensesByCategory l)
      | none => none
  match data with
  | none => { text := "-" }
  | some d =>
    if d.categorias.isEmpty then { text := "-" }
    else
      let entries :=
        ((d.categorias.filter fun p => p.2.num != 0).insertionSort despesaGe).map
          fun p => p.1 ++ ": " ++ formatCurrency (.vNum p.2)
      if entries.isEmpty then { text := "-" }
      else
        let displayEntries := entries.take maxItems
        let suffix :=
          if entries.length > maxItems then " +" ++ toString (entries.length - maxItems) else ""
        { text := jsTrim (joinSep ", " displayEntries ++ suffix),
          tooltip := some (joinSep "\n" entries) }

/-- `hasArmazenagemDetails(operation)` (dashboard.js lines 319–339). -/
def hasArmazenagemDetails (operation : Operation) : Bool :=
  if truthy operation.has_armazenagem_data then true
  else
    match operation.armazenagem_data with
    | some fields =>
      fields.any fun p =>
        match p.2 with
        | .vNull => false
        | .vUndefined => false
        | .vNum n => n.num != 0
        | v =>
          let str := jsTrim (jsToString v)
          str != "" && str != "0" && str != "-"
    | none => false

/-- `formatDate(dateString)` (dashboard.js lines 3996–4012): `'-'` for a
falsy input; otherwise a well-formed `DD/MM/YYYY` or ISO date string is
re-rendered by the `Date` object in the `pt-BR` locale, which is the
identity on the `DD/MM/YYYY` strings this API serves — the `Date`
normalization of malformed strings is not modelled, and every theorem
below evaluates `formatDate` only on its falsy branch.  The `catch`
branch (a non-string truthy input, whose `includes` call throws) returns
the input, coerced when interpolated. -/
def formatDate (v : JSValue) : String := if truthy v = false then "-" else jsToString v

/-- `getArmazenagemDisplay(operation, field)` (dashboard.js lines 341–373). -/
def getArmazenagemDisplay (operation : Operation) (field : String) : String :=
  match operation.armazenagem_data with
  | none => "-"
  | some fields =>
    let value := ((fields.find? fun p => p.1 == field).map Prod.snd).getD .vUndefined
    if value = .vNull || value = .vUndefined || value = .vStr "" || value = .vStr "-" then "-"
    else if field = "valor_despesas_extras" then
      match jsNumber value with
      | some numeric => if numeric.num != 0 then formatCurrency (.vNum numeric) else "-"
      | none => "-"
    else if field = "dias_extras_armazenagem" then
      match jsNumber value with
      | some numeric =>
        if numeric.num != 0 then
          numeric.render ++ " " ++ (if numeric.num = numeric.dval then "dia" else "dias")
        else "-"
      | none => "-"
    else formatDate value

/-- Day key of `parseDate(dateStr)` (dashboard.js lines 2425–2436), for the
"arrives today" comparison only: `some (y*10000 + m*100 + d)` for a
recognizable `D/M/YYYY` or `YYYY-MM-DD` string, `none` otherwise.  Only the
`none`-producing falsy branch is exercised by the theorems below. -/
def parseDateKey (v : JSValue) : Option Int :=
  match v with
  | .vStr s =>
    match s.splitOn "/" with
    | [d, m, y] =>
      match parseDigits d.data, parseDigits m.data, parseDigits y.data with
      | some dd, some mm, some yy => some ((yy : Int) * 10000 + mm * 100 + dd)
      | _, _, _ =>
        match s.splitOn "-" with
        | [y₂, m₂, d₂] =>
          match parseDigits y₂.data, parseDigits m₂.data, parseDigits d₂.data with
          | some yy, some mm, some dd => some ((yy : Int) * 10000 + mm * 100 + dd)
          | _, _, _ => none
        | _ => none
    | _ =>
      match s.splitOn "-" with
      | [y, m, d] =>
        match parseDigits y.data, parseDigits m.data, parseDigits d.data with
        | some yy, some mm, some dd => some ((yy : Int) * 10000 + mm * 100 + dd)
        | _, _, _ => none
      | _ => none
  | _ => none

/-- `formatDataChegada(dateString)` (dashboard.js lines 4081–4102):
`'-'` for falsy input; a date equal to today (`todayKey`) is wrapped in the
`chegada-proxima` indicator. -/
def formatDataChegada (todayKey : Int) (v : JSValue) : String :=
  if truthy v = false then "-"
  else
    match parseDateKey v with
    | none => formatDate v
    | some k =>
      if k = todayKey then
        "<span class=\"chegada-proxima\">\n            <i class=\"mdi mdi-clock\"></i>\n            "
          ++ formatDate v ++ "\n        </span>"
      else formatDate v

/-- `getStatusBadge(status)` (dashboard.js lines 4014–4037). -/
def getStatusBadge (status : JSValue) : String :=
  if truthy status = false then "<span class=\"badge badge-secondary\">-</span>"
  else
    match status with
    | .vStr s =>
      if asciiUpper (jsTrim s) = "N/A" then "<span class=\"badge badge-secondary\">N/A</span>"
      else
        let displayStatus :=
          if containsSubstr s " - " then jsTrim (((s.splitOn " - ").drop 1).headD "")
          else s
        "<span class=\"badge badge-light-monochrome\">" ++ displayStatus ++ "</span>"
    | v => "<span class=\"badge badge-light-monochrome\">" ++ jsToString v ++ "</span>"

/-- `getModalBadge(modal)` (dashboard.js lines 4057–4079). -/
def getModalBadge (modal : JSValue) : String :=
  if truthy modal = false then "<span class=\"badge badge-secondary\">-</span>"
  else
    let modalUpper := jsTrim (asciiUpper (jsToString modal))
    let icon :=
      if containsSubstr modalUpper "MARÍTIMA" || containsSubstr modalUpper "MARITIMA" then
        "mdi mdi-ferry"
      else if containsSubstr modalUpper "AÉREA" || containsSubstr modalUpper "AEREA" then
        "mdi mdi-airplane"
      else if containsSubstr modalUpper "RODOVIÁRIA" || containsSubstr modalUpper "RODOVIARIA" then
        "mdi mdi-truck"
      else if containsSubstr modalUpper "FERROVIÁRIA" || containsSubstr modalUpper "FERROVIARIA" then
        "mdi mdi-train"
      else if containsSubstr modalUpper "POSTAL" || containsSubstr modalUpper "CORREIO" then
        "mdi mdi-email"
      else if containsSubstr modalUpper "COURIER" || containsSubstr modalUpper "EXPRESS" then
        "mdi mdi-package-variant"
      else "mdi mdi-help"
    "<span class=\"modal-icon-badge\" title=\"" ++ modalUpper ++ "\"><i class=\""
      ++ icon ++ "\"></i></span>"

/-- `getCanalIndicator(canal)` (dashboard.js lines 4724–4741). -/
def getCanalIndicator (canal : JSValue) : String :=
  let rawLabel := if truthy canal then jsTrim (jsToString canal) else ""
  let upperLabel := if rawLabel != "" then asciiUpper rawLabel else ""
  let dotClass :=
    if containsSubstr upperLabel "VERDE" then "verde"
    else if containsSubstr upperLabel "AMARELO" then "amarelo"
    else if containsSubstr upperLabel "VERMELHO" then "vermelho"
    else "neutro"
  let displayLabel := if upperLabel != "" && upperLabel != "N/A" then upperLabel else "-"
  let escapedLabel := escapeHtml (.vStr displayLabel)
  "<span class=\"canal-indicator\"><span class=\"canal-dot " ++ dotClass
    ++ "\"></span><span class=\"canal-text\">" ++ escapedLabel ++ "</span></span>"

/-- `extractContainerValues(operation)` (dashboard.js lines 375–396). -/
def extractContainerValues (operation : Operation) : List String :=
  let rawValue := containerOr operation.container (containerOr operation.numero_container
    (containerOr operation.conteiner operation.conteineres))
  match rawValue with
  | .cArr items =>
    (items.map fun item =>
      match item with
      | .vNull => ""
      | .vUndefined => ""
      | v => jsTrim (jsToString v)).filter (· != "")
  | .cVal (.vStr s) =>
    (((s.data.splitOnP fun c => c = ',' || c = ';' || c = '|' || c = '\n').map
      fun seg => jsTrim (String.mk seg)).filter (· != ""))
  | _ => []

/-- `createChipListMarkup(values, options = {})` (dashboard.js lines
398–431): `none` models the `null` return; callers render `null` as `'-'`.
The overflow-chip template's literal whitespace is reproduced
approximately (immaterial: every theorem trims whitespace). -/
def createChipListMarkup (values : List String) (maxVisible : Nat := 6) : Option String :=
  if values.isEmpty then none
  else
    let normalized := (values.map jsTrim).filter (· != "")
    if normalized.isEmpty then none
    else
      let visibleValues := normalized.take maxVisible
      let overflow := normalized.length - visibleValues.length
      let chips := visibleValues.map fun value =>
        let display := if value.length > 18 then (value.take 18) ++ "…" else value
        "<span class=\"data-chip\" title=\"" ++ escapeHtml (.vStr value) ++ "\">"
          ++ escapeHtml (.vStr display) ++ "</span>"
      let chips :=
        if overflow > 0 then
          chips ++ ["\n            <span class=\"data-chip data-chip-more\" title=\""
            ++ toString overflow ++ " item" ++ (if overflow = 1 then "" else "s")
            ++ " adicionais\">+" ++ toString overflow ++ "</span>\n        "]
        else chips
      some ("<div class=\"data-chip-list\">" ++ joinSep "" chips ++ "</div>")

/-- `normalizePesoBruto(peso)` (dashboard.js lines 2744–2758).  The
division by 100 is exact in this model (binary64 rounding not modelled; no
theorem evaluates that branch). -/
def normalizePesoBruto (peso : JSValue) : JSNum :=
  if truthy peso = false then ⟨0, 1⟩
  else
    match jsNumber peso with
    | none => ⟨0, 1⟩
    | some pesoNum =>
      if JSNum.lt ⟨100000, 1⟩ pesoNum then ⟨pesoNum.num, (pesoNum.dval * 100).toNat⟩
      else pesoNum

/-- Ambient browser state read by `renderRow`: `window.currentOperations`
(`none` when it is not an array), `window.hasKingspanAccess`, whether
`window.ArmazenagemKingspan` is defined, and today's date key (from
`new Date()` inside `formatDataChegada`). -/
structure RenderCtx where
  currentOperations : Option (List Operation) := none
  hasKingspanAccess : JSValue := .vUndefined
  armazenagemKingspanDefined : Bool := false
  todayKey : Int := 0

/-- A browser context with none of the optional globals present. -/
def bareCtx : RenderCtx := {}

/-- One cell of `recentOperationsTable.renderRow` (dashboard.js lines
1270–1423): the `switch (column.id)` dispatch, with the row-level
precomputations (lines 1219–1268) inlined — they are pure functions of the
record, so recomputing them per cell is denotationally identical.  The
memo writes onto the record (`operation.__produtos_summary = …`) only
backfill the value that is computed here when absent and are not modelled.
`indexOf` (reference equality in JavaScript) is approximated structurally;
template-literal whitespace is reproduced approximately (immaterial: the
theorems below compare whitespace-trimmed cell text). -/
def renderOperationCell (ctx : RenderCtx) (operation : Operation) (cid : String) : String :=
  let globalIndex : Int :=
    match ctx.currentOperations with
    | some ops =>
      match ops.findIdx? (fun op => op.ref_importador == operation.ref_importador) with
      | some i => (i : Int)
      | none => -1
    | none => -1
  let fallbackIndex : Int :=
    match ctx.currentOperations with
    | some ops =>
      match ops.findIdx? (fun op => op == operation) with
      | some i => (i : Int)
      | none => -1
    | none => -1
  let modalIndex := if globalIndex > -1 then globalIndex else fallbackIndex
  let isKingspanProcess :=
    containsSubstr (asciiUpper (jsToString (jsOr operation.importador (.vStr "")))) "KING"
  let hasProdutos :=
    match operation.produtos_processo with
    | some l => l.length > 0
    | none => false
  let hasArmazenagemData := hasArmazenagemDetails operation
  let exportadorFull := jsOr operation.exportador_fornecedor (.vStr "-")
  let exportadorDisplay : String :=
    match exportadorFull with
    | .vStr s => if s.length > 18 then s.take 18 ++ "…" else s
    | v => jsToString v
  let statusDisplay : JSValue :=
    if truthy operation.status_sistema && (jsTrim (jsToString operation.status_sistema) != "") then
      operation.status_sistema
    else jsOr operation.status_processo (jsOr operation.status (.vStr "Sem Info"))
  let expenseData : Option ExpenseData :=
    match operation.despesas_processo with
    | some l => if l.length != 0 then some (processExpensesByCategory l) else none
    | none => none
  let custoTotal : JSValue :=
    if truthy operation.custo_total_view && jsGtZero operation.custo_total_view then
      operation.custo_total_view
    else if truthy operation.custo_total && jsGtZero operation.custo_total then
      operation.custo_total
    else
      match expenseData with
      | some d => .vNum (if d.total.num = 0 then ⟨0, 1⟩ else d.total)
      | none => .vNum ⟨0, 1⟩
  let urfValue : JSValue :=
    if truthy operation.urf_despacho_normalizado
        && operation.urf_despacho_normalizado != .vStr "N/A" then
      operation.urf_despacho_normalizado
    else jsOr operation.urf_despacho (.vStr "-")
  let canalValue := jsOr operation.canal (jsOr operation.canal_parametrizado (.vStr "-"))
  let canalContent := getCanalIndicator canalValue
  let produtosResumo :=
    match operation.memoProdutosSummary with
    | some s => s
    | none => summarizeProdutos operation 3
  let despesasResumo := summarizeDespesas expenseData operation 3
  if cid = "acoes" then
    let firstButton :=
      if modalIndex > -1 then
        "\n    <button class=\"table-action-btn\" onclick=\"openProcessModal("
          ++ toString modalIndex
          ++ ")\" title=\"Ver detalhes\">\n        <i class=\"mdi mdi-eye-outline\"></i>\n    </button>\n"
      else
        "\n    <button class=\"table-action-btn\" disabled title=\"Processo indisponível\">\n        <i class=\"mdi mdi-eye-off-outline\"></i>\n    </button>\n"
    let allowBagagem :=
      (isKingspanProcess && truthy ctx.hasKingspanAccess) || hasProdutos || hasArmazenagemData
    let actionButtons :=
      if allowBagagem && ctx.armazenagemKingspanDefined then
        let tooltipText :=
          if hasProdutos && hasArmazenagemData then "Ver produtos e informações de armazenagem"
          else if hasProdutos then "Ver produtos detalhados"
          else "Ver informações de armazenagem"
        let iconSuffix := if hasProdutos || hasArmazenagemData then "" else "-outline"
        if modalIndex > -1 then
          [firstButton,
           "\n    <button class=\"table-action-btn\" onclick=\"openArmazenagemModal("
             ++ toString modalIndex ++ ")\" title=\"" ++ tooltipText
             ++ "\">\n        <i class=\"mdi mdi-bag-suitcase" ++ iconSuffix
             ++ "\"></i>\n    </button>\n"]
        else [firstButton]
      else [firstButton]
    "<td>" ++ joinSep "" actionButtons ++ "</td>"
  else if cid = "ref_importador" then
    "<td><strong>" ++ jsToString (jsOr operation.ref_importador (.vStr "-")) ++ "</strong></td>"
  else if cid = "importador" then
    "<td>" ++ jsToString (jsOr operation.importador (.vStr "-")) ++ "</td>"
  else if cid = "data_abertura" then
    "<td>" ++ formatDate operation.data_abertura ++ "</td>"
  else if cid = "exportador" then
    "<td title=\"" ++ jsToString exportadorFull ++ "\">" ++ exportadorDisplay ++ "</td>"
  else if cid = "modal" then
    "<td>" ++ getModalBadge operation.modal ++ "</td>"
  else if cid = "status" then
    "<td>" ++ getStatusBadge statusDisplay ++ "</td>"
  else if cid = "custos" then
    "<td><span class=\"currency-value\">" ++ formatCurrency custoTotal ++ "</span></td>"
  else if cid = "data_chegada" then
    "<td>" ++ formatDataChegada ctx.todayKey operation.data_chegada ++ "</td>"
  else if cid = "presenca_carga" then
    "<td>" ++ jsToString (jsOr operation.presenca_carga (.vStr "-")) ++ "</td>"
  else if cid = "data_embarque" then
    "<td>" ++ formatDate operation.data_embarque ++ "</td>"
  else if cid = "transit_time" then
    let transitTime := jsOr operation.transit_time operation.transit_time_real
    "<td>" ++ (if truthy transitTime then jsToString transitTime ++ " dias" else "-") ++ "</td>"
  else if cid = "mercadoria" then
    "<td>" ++ jsToString (jsOr operation.mercadoria (.vStr "-")) ++ "</td>"
  else if cid = "produtos" then
    let tooltip :=
      match produtosResumo.tooltip with
      | some t =>
        if t != "" then String.mk (replaceAllChar (escapeHtml (.vStr t)).data '\n' "&#10;".data)
        else ""
      | none => ""
    let tooltipAttr := if tooltip != "" then " title=\"" ++ tooltip ++ "\"" else ""
    let chipsMarkup := createChipListMarkup produtosResumo.entries 4
    let text := escapeHtml (.vStr (if produtosResumo.text != "" then produtosResumo.text else "-"))
    "<td" ++ tooltipAttr ++ ">"
      ++ (match chipsMarkup with
          | some m => m
          | none => if text != "" then text else "-")
      ++ "</td>"
  else if cid = "container" then
    let containerValues :=
      match operation.memoContainerValues with
      | some l => l
      | none => extractContainerValues operation
    let chipsMarkup := createChipListMarkup containerValues 6
    "<td>" ++ chipsMarkup.getD "-" ++ "</td>"
  else if cid = "peso_bruto" then
    let peso := jsOr operation.peso_bruto (jsOr operation.peso_bruto_kg operation.peso_bruto_total)
    let pesoNormalized := normalizePesoBruto peso
    "<td>" ++ (if pesoNormalized.num != 0 then formatNumber pesoNormalized 2 ++ " kg" else "-")
      ++ "</td>"
  else if cid = "despesas" then
    let text := escapeHtml (.vStr (if despesasResumo.text != "" then despesasResumo.text else "-"))
    let tooltip :=
      match despesasResumo.tooltip with
      | some t =>
        if t != "" then String.mk (replaceAllChar (escapeHtml (.vStr t)).data '\n' "&#10;".data)
        else ""
      | none => ""
    let tooltipAttr := if tooltip != "" then " title=\"" ++ tooltip ++ "\"" else ""
    "<td" ++ tooltipAttr ++ ">" ++ (if text != "" then text else "-") ++ "</td>"
  else if cid = "urf" then
    "<td>" ++ jsToString urfValue ++ "</td>"
  else if cid = "numero_di" then
    "<td>" ++ jsToString (jsOr operation.numero_di (jsOr operation.numero_declaracao (.vStr "-")))
      ++ "</td>"
  else if cid = "data_registro" then
    "<td>" ++ formatDate (jsOr operation.data_registro operation.data_registro_di) ++ "</td>"
  else if cid = "canal" then
    "<td>" ++ canalContent ++ "</td>"
  else if cid = "pais" then
    let pais :=
      jsOr operation.pais (jsOr operation.pais_procedencia_normalizado operation.pais_procedencia)
    "<td>" ++ (if truthy pais then jsToString pais else "-") ++ "</td>"
  else if cid = "data_desova" then
    "<td>" ++ escapeHtml (.vStr (getArmazenagemDisplay operation "data_desova")) ++ "</td>"
  else if cid = "limite_primeiro_periodo" then
    "<td>" ++ escapeHtml (.vStr (getArmazenagemDisplay operation "limite_primeiro_periodo"))
      ++ "</td>"
  else if cid = "limite_segundo_periodo" then
    "<td>" ++ escapeHtml (.vStr (getArmazenagemDisplay operation "limite_segundo_periodo"))
      ++ "</td>"
  else if cid = "dias_extras_armazenagem" then
    "<td>" ++ escapeHtml (.vStr (getArmazenagemDisplay operation "dias_extras_armazenagem"))
      ++ "</td>"
  else if cid = "valor_despesas_extras" then
    "<td>" ++ escapeHtml (.vStr (getArmazenagemDisplay operation "valor_despesas_extras"))
      ++ "</td>"
  else if cid = "po_cliente" then
    "<td>" ++ escapeHtml (jsOr operation.po_cliente (.vStr "-")) ++ "</td>"
  else if cid = "referencia_exportador" then
    "<td>" ++ escapeHtml (jsOr operation.referencia_exportador (.vStr "-")) ++ "</td>"
  else if cid = "codigo_produto" then
    "<td>" ++ escapeHtml (jsOr operation.codigo_produto (.vStr "-")) ++ "</td>"
  else if cid = "filial_codigo" then
    "<td>" ++ escapeHtml (jsOr operation.filial_codigo (.vStr "-")) ++ "</td>"
  else if cid = "licenca_importacao" then
    "<td>" ++ escapeHtml (jsOr operation.licenca_importacao (.vStr "-")) ++ "</td>"
  else if cid = "freetime" then
    "<td>" ++ escapeHtml (jsOr operation.freetime (.vStr "-")) ++ "</td>"
  else if cid = "etb" then
    "<td>" ++ formatDate operation.etb ++ "</td>"
  else if cid = "navio" then
    "<td>" ++ escapeHtml (jsOr operation.navio (.vStr "-")) ++ "</td>"
  else if cid = "armador_agente_trade" then
    "<td>" ++ escapeHtml (jsOr operation.armador_agente_trade (.vStr "-")) ++ "</td>"
  else if cid = "moeda" then
    "<td>" ++ escapeHtml (jsOr operation.moeda (.vStr "-")) ++ "</td>"
  else if cid = "total_pedido_moeda_origem" then
    "<td>"
      ++ (if truthy operation.total_pedido_moeda_origem then
            formatCurrency operation.total_pedido_moeda_origem
          else "-")
      ++ "</td>"
  else if cid = "ptax" then
    "<td>" ++ (if truthy operation.ptax then toFixed4 operation.ptax else "-") ++ "</td>"
  else if cid = "incoterm" then
    "<td>" ++ escapeHtml (jsOr operation.incoterm (.vStr "-")) ++ "</td>"
  else "<td>-</td>"

/-- `recentOperationsTable.renderRow(operation)` (dashboard.js lines
1212–1427).  The source reads the visible columns via
`getVisibleColumns()`; here they are a parameter (only their `id` is
consulted by the dispatch). -/
def renderRow (ctx : RenderCtx) (visibleColumns : List String) (operation : Operation) : String :=
  if visibleColumns.isEmpty then
    "<td colspan=\"1\">Configuração de colunas indisponível</td>"
  else
    joinSep "" (visibleColumns.map (renderOperationCell ctx operation))

/-- Text content of a markup fragment: everything outside `<…>` tags. -/
def stripTags (s : String) : String :=
  let step := fun (acc : List Char × Bool) (c : Char) =>
    let (out, inTag) := acc
    if inTag then (out, c != '>')
    else if c = '<' then (out, true)
    else (out ++ [c], false)
  String.mk (s.data.foldl step ([], false)).1

/-- Whitespace-trimmed text content of a rendered cell. -/
def cellText (s : String) : String := jsTrim (stripTags s)

/-! # Theorems -/

/-! ## Facts about the registry and `normalizeColumnsConfig` -/

theorem availableColumns_ids_nodup : (AVAILABLE_COLUMNS.map (·.id)).Nodup := by decide

theorem isNumberValue_eq {v : JSValue} (h : isNumberValue v = true) : ∃ q, v = .vNum q := by
  cases v <;> simp [isNumberValue] at h ⊢

theorem resolveColumn_id (config : List StoredEntry) (col : ColumnDef) :
    (resolveColumn config col).id = col.id := by
  unfold resolveColumn
  cases configLookup config col.id <;> rfl

theorem resolveColumn_order (config : List StoredEntry) (col : ColumnDef) :
    ∃ q, (resolveColumn config col).order = .vNum q := by
  unfold resolveColumn
  cases h : configLookup config col.id with
  | none => exact ⟨col.order, rfl⟩
  | some stored =>
    by_cases hn : isNumberValue stored.order = true
    · obtain ⟨q, hq⟩ := isNumberValue_eq hn
      exact ⟨q, by simp [hn, hq, isNumberValue]⟩
    · exact ⟨col.order, by simp [hn]⟩

theorem resolveColumn_visible (config : List StoredEntry) (col : ColumnDef) :
    ∃ b, (resolveColumn config col).visible = .vBool b := by
  unfold resolveColumn
  cases configLookup config col.id with
  | none => exact ⟨_, rfl⟩
  | some stored => exact ⟨_, rfl⟩

theorem resolveColumn_fixed (config : List StoredEntry) (col : ColumnDef)
    (h : col.fixed = true) : (resolveColumn config col).visible = .vBool true := by
  unfold resolveColumn
  cases configLookup config col.id <;> simp [h]

theorem reassignOrdersFrom_length (n : Nat) (l : List StoredEntry) :
    (reassignOrdersFrom n l).length = l.length := by
  induction l generalizing n with
  | nil => rfl
  | cons e rest ih => simp [reassignOrdersFrom, ih]

theorem reassignOrdersFrom_map_id (n : Nat) (l : List StoredEntry) :
    (reassignOrdersFrom n l).map (·.id) = l.map (·.id) := by
  induction l generalizing n with
  | nil => rfl
  | cons e rest ih => simp [reassignOrdersFrom, ih]

theorem mem_reassignOrdersFrom {n : Nat} {l : List StoredEntry} {e : StoredEntry}
    (h : e ∈ reassignOrdersFrom n l) : ∃ e₀ ∈ l, e.id = e₀.id ∧ e.visible = e₀.visible := by
  induction l generalizing n with
  | nil => simp [reassignOrdersFrom] at h
  | cons e₀ rest ih =>
    simp only [reassignOrdersFrom, List.mem_cons] at h
    rcases h with h | h
    · exact ⟨e₀, List.mem_cons_self _ _, by simp [h]⟩
    · obtain ⟨e₁, he₁, hprops⟩ := ih h
      exact ⟨e₁, List.mem_cons_of_mem _ he₁, hprops⟩

theorem reassignOrdersFrom_getq {l : List StoredEntry} {n i : Nat} {e : StoredEntry}
    (h : (reassignOrdersFrom n l).get? i = some e) :
    e.order = .vNum (JSNum.ofNat (n + i)) := by
  induction l generalizing n i with
  | nil => simp [reassignOrdersFrom] at h
  | cons e₀ rest ih =>
    cases i with
    | zero =>
      simp [reassignOrdersFrom] at h
      simp [← h]
    | succ i =>
      simp only [reassignOrdersFrom, List.get?_cons_succ] at h
      have := ih h
      simpa [Nat.add_assoc, Nat.add_comm 1 i] using this

theorem reassignOrdersFrom_idem (n : Nat) (l : List StoredEntry) :
    reassignOrdersFrom n (reassignOrdersFrom n l) = reassignOrdersFrom n l := by
  induction l generalizing n with
  | nil => rfl
  | cons e rest ih => simp [reassignOrdersFrom, ih]

theorem normalizeColumnsConfig_eq (config : List StoredEntry) :
    normalizeColumnsConfig config =
      reassignOrdersFrom 0 ((AVAILABLE_COLUMNS.map (resolveColumn config)).insertionSort entryLe) :=
  rfl

theorem normalize_ids_perm (config : List StoredEntry) :
    List.Perm ((normalizeColumnsConfig config).map (·.id)) (AVAILABLE_COLUMNS.map (·.id)) := by
  rw [normalizeColumnsConfig_eq, reassignOrdersFrom_map_id]
  have hp := (List.perm_insertionSort entryLe (AVAILABLE_COLUMNS.map (resolveColumn config))).map
    (·.id)
  have hm : (AVAILABLE_COLUMNS.map (resolveColumn config)).map (·.id) =
      AVAILABLE_COLUMNS.map (·.id) := by
    rw [List.map_map]
    exact List.map_congr_left fun col _ => resolveColumn_id config col
  rwa [hm] at hp

theorem normalize_length (config : List StoredEntry) :
    (normalizeColumnsConfig config).length = AVAILABLE_COLUMNS.length := by
  have h := (normalize_ids_perm config).length_eq
  simpa using h

theorem normalize_order_get (config : List StoredEntry) (i : Nat) (e : StoredEntry)
    (h : (normalizeColumnsConfig config).get? i = some e) :
    e.order = .vNum (JSNum.ofNat i) := by
  rw [normalizeColumnsConfig_eq] at h
  simpa using reassignOrdersFrom_getq h

theorem normalize_mem (config : List StoredEntry) (e : StoredEntry)
    (he : e ∈ normalizeColumnsConfig config) :
    ∃ col ∈ AVAILABLE_COLUMNS, e.id = col.id ∧ e.visible = (resolveColumn config col).visible := by
  rw [normalizeColumnsConfig_eq] at he
  obtain ⟨e₀, he₀, hid, hvis⟩ := mem_reassignOrdersFrom he
  have : e₀ ∈ AVAILABLE_COLUMNS.map (resolveColumn config) :=
    (List.mem_insertionSort entryLe).mp he₀
  obtain ⟨col, hcol, rfl⟩ := List.mem_map.mp this
  exact ⟨col, hcol, by rw [hid, resolveColumn_id], hvis⟩

theorem registry_id_inj {c₁ c₂ : ColumnDef} (h₁ : c₁ ∈ AVAILABLE_COLUMNS)
    (h₂ : c₂ ∈ AVAILABLE_COLUMNS) (h : c₁.id = c₂.id) : c₁ = c₂ :=
  List.inj_on_of_nodup_map availableColumns_ids_nodup h₁ h₂ h

theorem normalize_fixed_visible (config : List StoredEntry) {col : ColumnDef}
    (hcol : col ∈ AVAILABLE_COLUMNS) (hfix : col.fixed = true) {e : StoredEntry}
    (he : e ∈ normalizeColumnsConfig config) (hid : e.id = col.id) :
    e.visible = .vBool true := by
  obtain ⟨col', hcol', hid', hvis'⟩ := normalize_mem config e he
  have : col' = col := registry_id_inj hcol' hcol (by rw [← hid', hid])
  subst this
  rw [hvis', resolveColumn_fixed config col' hfix]

/-- C1: for every stored column configuration (empty, partial, with unknown
ids, non-numeric or duplicate order values), `normalizeColumnsConfig`
returns exactly one entry per `AVAILABLE_COLUMNS` registry id (the output
ids are a permutation of the registry ids, and each registry id occurs in
exactly one output entry), the entry at position `i` carries `order = i`
(contiguous `0 .. n-1`), and every entry whose registry definition is
`fixed` has `visible = true`. -/
theorem c1_normalize_registry_invariants (config : List StoredEntry) :
    List.Perm ((normalizeColumnsConfig config).map (·.id)) (AVAILABLE_COLUMNS.map (·.id))
    ∧ (∀ col ∈ AVAILABLE_COLUMNS,
        ((normalizeColumnsConfig config).filter (fun e => e.id = col.id)).length = 1)
    ∧ (∀ (i : Nat) (e : StoredEntry), (normalizeColumnsConfig config).get? i = some e →
        e.order = .vNum (JSNum.ofNat i))
    ∧ (∀ col ∈ AVAILABLE_COLUMNS, col.fixed = true →
        ∀ e ∈ normalizeColumnsConfig config, e.id = col.id → e.visible = .vBool true) := by
  refine ⟨normalize_ids_perm config, ?_, normalize_order_get config, ?_⟩
  · intro col hcol
    have hcount : ((normalizeColumnsConfig config).map (·.id)).count col.id = 1 := by
      rw [(normalize_ids_perm config).count_eq]
      exact List.count_eq_one_of_mem availableColumns_ids_nodup
        (List.mem_map.mpr ⟨col, hcol, rfl⟩)
    have hfun : ((· == col.id) ∘ fun (e : StoredEntry) => e.id) =
        fun (e : StoredEntry) => decide (e.id = col.id) := by
      funext e
      by_cases h : e.id = col.id <;> simp [h, Function.comp]
    calc ((normalizeColumnsConfig config).filter (fun e => e.id = col.id)).length
        = (normalizeColumnsConfig config).countP (fun e => e.id = col.id) :=
          (List.countP_eq_length_filter _ _).symm
      _ = ((normalizeColumnsConfig config).map (·.id)).count col.id := by
          rw [List.count, List.countP_map, hfun]
      _ = 1 := hcount
  · exact fun col hcol hfix e he hid => normalize_fixed_visible config hcol hfix he hid

/-- Witness for C1 at the concrete configuration
`[{id:'urf', visible:false, order:0}]`: the `acoes` id occurs exactly once
in the output, the head entry carries order 0, and the fixed `acoes`
column is visible. -/
theorem c1_normalize_registry_invariants_witness :
    ((normalizeColumnsConfig [⟨"urf", .vBool false, .vNum ⟨0, 1⟩⟩]).filter
      (fun e => e.id = "acoes")).length = 1
    ∧ (∀ e ∈ normalizeColumnsConfig [⟨"urf", .vBool false, .vNum ⟨0, 1⟩⟩],
        e.id = "acoes" → e.visible = .vBool true) := by
  obtain ⟨-, hone, -, hfix⟩ :=
    c1_normalize_registry_invariants [⟨"urf", .vBool false, .vNum ⟨0, 1⟩⟩]
  let acoesCol : ColumnDef :=
    { id := "acoes", label := "Ações", visible := true, fixed := true,
      showInConfig := some false, sortable := some false, sortField := "acoes",
      category := "Identificação", order := ⟨0, 1⟩ }
  have hacoes : acoesCol ∈ AVAILABLE_COLUMNS := by decide
  exact ⟨hone acoesCol hacoes, fun e he hid => hfix acoesCol hacoes (by decide) e he hid⟩

/-! ## Idempotence of `normalizeColumnsConfig` (C6) -/

theorem configLookup_go_const (t : List StoredEntry) (acc : Option StoredEntry) (i : String)
    (h : ∀ e' ∈ t, e'.id ≠ i) :
    t.foldl (fun acc e => if e.id = i then some e else acc) acc = acc := by
  induction t generalizing acc with
  | nil => rfl
  | cons b t' ih =>
    have hb : b.id ≠ i := h b (List.mem_cons_self _ _)
    simp only [List.foldl_cons, if_neg hb]
    exact ih acc fun e' he' => h e' (List.mem_cons_of_mem _ he')

theorem configLookup_of_nodup {l : List StoredEntry} (hn : (l.map (·.id)).Nodup)
    {e : StoredEntry} (he : e ∈ l) : configLookup l e.id = some e := by
  induction l with
  | nil => simp at he
  | cons a t ih =>
    rw [List.map_cons, List.nodup_cons] at hn
    rcases List.mem_cons.mp he with rfl | het
    · unfold configLookup
      simp only [List.foldl_cons, if_pos rfl]
      exact configLookup_go_const t (some e) e.id fun e' he' hEq =>
        hn.1 (hEq ▸ List.mem_map.mpr ⟨e', he', rfl⟩)
    · unfold configLookup at ih ⊢
      simp only [List.foldl_cons]
      by_cases ha : a.id = e.id
      · exact absurd (ha ▸ List.mem_map.mpr ⟨e, het, rfl⟩) hn.1
      · rw [if_neg ha]
        exact ih hn.2 het

theorem normalize_ids_nodup (config : List StoredEntry) :
    ((normalizeColumnsConfig config).map (·.id)).Nodup :=
  ((normalize_ids_perm config).nodup_iff).mpr availableColumns_ids_nodup

theorem normalize_visible_bool (config : List StoredEntry) {e : StoredEntry}
    (he : e ∈ normalizeColumnsConfig config) : ∃ b, e.visible = .vBool b := by
  obtain ⟨col, hcol, hid, hvis⟩ := normalize_mem config e he
  obtain ⟨b, hb⟩ := resolveColumn_visible config col
  exact ⟨b, by rw [hvis, hb]⟩

theorem normalize_entryOrder_get {config : List StoredEntry} {i : Nat} {e : StoredEntry}
    (h : (normalizeColumnsConfig config).get? i = some e) : entryOrder e = JSNum.ofNat i := by
  have := normalize_order_get config i e h
  unfold entryOrder
  rw [this]

theorem mem_reassignOrdersFrom_order {n : Nat} {l : List StoredEntry} {e : StoredEntry}
    (h : e ∈ reassignOrdersFrom n l) : ∃ k, e.order = .vNum (JSNum.ofNat (n + k)) := by
  obtain ⟨i, hi⟩ := List.get?_of_mem h
  exact ⟨i, reassignOrdersFrom_getq hi⟩

theorem reassignOrdersFrom_pairwise_lt (n : Nat) (l : List StoredEntry) :
    List.Pairwise entryLt (reassignOrdersFrom n l) := by
  induction l generalizing n with
  | nil => constructor
  | cons e rest ih =>
    simp only [reassignOrdersFrom]
    constructor
    · intro b hb
      obtain ⟨k, hk⟩ := mem_reassignOrdersFrom_order hb
      unfold entryLt JSNum.lt entryOrder
      rw [hk]
      simp [JSNum.ofNat, JSNum.dval]
      omega
    · exact ih (n + 1)

theorem normalize_pairwise_lt (config : List StoredEntry) :
    List.Pairwise entryLt (normalizeColumnsConfig config) := by
  rw [normalizeColumnsConfig_eq]
  exact reassignOrdersFrom_pairwise_lt 0 _

theorem resolveColumn_normalize (config : List StoredEntry) {col : ColumnDef}
    (hcol : col ∈ AVAILABLE_COLUMNS) :
    ∃ e ∈ normalizeColumnsConfig config, e.id = col.id ∧
      resolveColumn (normalizeColumnsConfig config) col = e := by
  have hperm := normalize_ids_perm config
  have hmemid : col.id ∈ (normalizeColumnsConfig config).map (·.id) :=
    hperm.mem_iff.mpr (List.mem_map.mpr ⟨col, hcol, rfl⟩)
  obtain ⟨e, he, hid⟩ := List.mem_map.mp hmemid
  refine ⟨e, he, hid, ?_⟩
  have hlookup : configLookup (normalizeColumnsConfig config) col.id = some e := by
    have := configLookup_of_nodup (normalize_ids_nodup config) he
    rwa [hid] at this
  obtain ⟨b, hb⟩ := normalize_visible_bool config he
  obtain ⟨idx, hidx⟩ := List.get?_of_mem he
  have hord := normalize_order_get config idx e hidx
  have hvis : (JSValue.vBool (if col.fixed then true else truthy e.visible)) = e.visible := by
    by_cases hfix : col.fixed = true
    · rw [normalize_fixed_visible config hcol hfix he hid]
      simp [hfix]
    · simp only [Bool.not_eq_true] at hfix
      rw [hb]
      simp [hfix, truthy]
  have hordeq : (if isNumberValue e.order then e.order else JSValue.vNum col.order) = e.order := by
    rw [hord]
    simp [isNumberValue]
  unfold resolveColumn
  rw [hlookup]
  dsimp only
  rw [hvis, hordeq, ← hid]

theorem normalize_idem (config : List StoredEntry) :
    normalizeColumnsConfig (normalizeColumnsConfig config) = normalizeColumnsConfig config := by
  set y := normalizeColumnsConfig config with hy
  set m := AVAILABLE_COLUMNS.map (resolveColumn y) with hm
  have hmem : ∀ z ∈ m, z ∈ y := by
    intro z hz
    rw [hm] at hz
    obtain ⟨col, hcol, hres⟩ := List.mem_map.mp hz
    obtain ⟨e, he, -, heq⟩ := resolveColumn_normalize config hcol
    rw [← hres, heq]
    exact he
  have hmids : m.map (·.id) = AVAILABLE_COLUMNS.map (·.id) := by
    rw [hm, List.map_map]
    exact List.map_congr_left fun col _ => resolveColumn_id y col
  have hmidsnodup : (m.map (·.id)).Nodup := by
    rw [hmids]
    exact availableColumns_ids_nodup
  have hmnodup : m.Nodup := List.Nodup.of_map (·.id) hmidsnodup
  have hylen : y.length = AVAILABLE_COLUMNS.length := normalize_length config
  have hmlen : m.length = AVAILABLE_COLUMNS.length := by rw [hm, List.length_map]
  have hperm : List.Perm m y :=
    (List.Nodup.subperm hmnodup hmem).perm_of_length_le (by rw [hylen, hmlen])
  have hsorted_m : List.Pairwise entryLe (m.insertionSort entryLe) :=
    List.sorted_insertionSort entryLe m
  have hperm_s : List.Perm (m.insertionSort entryLe) y :=
    (List.perm_insertionSort entryLe m).trans hperm
  have hlty : List.Pairwise entryLt y := normalize_pairwise_lt config
  have hvney : List.Pairwise (fun a b => JSNum.vne (entryOrder a) (entryOrder b)) y :=
    hlty.imp fun h => ne_of_lt h
  have hvnes : List.Pairwise (fun a b => JSNum.vne (entryOrder a) (entryOrder b))
      (m.insertionSort entryLe) :=
    (hperm_s.pairwise_iff fun hab => Ne.symm hab).mpr hvney
  have hlts : List.Pairwise entryLt (m.insertionSort entryLe) :=
    (hsorted_m.and hvnes).imp fun h => lt_of_le_of_ne h.1 h.2
  have hs_eq : m.insertionSort entryLe = y :=
    List.eq_of_perm_of_sorted hperm_s hlts hlty
  rw [normalizeColumnsConfig_eq y, ← hm, hs_eq, hy, normalizeColumnsConfig_eq config]
  exact reassignOrdersFrom_idem 0 _

/-- C6: `normalizeColumnsConfig` is idempotent — for every input
configuration `x`, `normalize (normalize x) = normalize x`; in particular
`normalize (getDefaultColumnsConfig)` is a fixed point of `normalize`. -/
theorem c6_normalize_idempotent :
    (∀ config : List StoredEntry,
      normalizeColumnsConfig (normalizeColumnsConfig config) = normalizeColumnsConfig config)
    ∧ normalizeColumnsConfig (normalizeColumnsConfig getDefaultColumnsConfig) =
        normalizeColumnsConfig getDefaultColumnsConfig :=
  ⟨normalize_idem, normalize_idem getDefaultColumnsConfig⟩

/-! ## The persisted `urf` scenario (C7) -/

/-- C7 counterexample: normalizing the persisted configuration
`[{id:'urf', visible:false, order:0}]` does *not* place `urf` at position 0
— position 0 is the fixed `acoes` column, whose registry order is also `0`
and which precedes `urf` in the stable sort; `urf` is not first. -/
theorem c7_counterexample_urf_not_first :
    ((normalizeColumnsConfig [⟨"urf", .vBool false, .vNum ⟨0, 1⟩⟩]).get? 0).map (·.id)
        ≠ some "urf"
    ∧ ((normalizeColumnsConfig [⟨"urf", .vBool false, .vNum ⟨0, 1⟩⟩]).get? 0) =
        some ⟨"acoes", .vBool true, .vNum ⟨0, 1⟩⟩ := by
  decide

/-- C7 (amended): normalizing the persisted configuration
`[{id:'urf', visible:false, order:0}]` yields every other registry column
with its registry-default visibility and relative ordering, and moves
`urf` — with `visible = false` — to position 1 (order 1), immediately after
the fixed `acoes` column (both carry order 0, and the stable sort keeps
`acoes`, which precedes `urf` in the registry, first). -/
theorem c7_urf_config_normalization :
    ((normalizeColumnsConfig [⟨"urf", .vBool false, .vNum ⟨0, 1⟩⟩]).get? 1) =
        some ⟨"urf", .vBool false, .vNum ⟨1, 1⟩⟩
    ∧ (normalizeColumnsConfig [⟨"urf", .vBool false, .vNum ⟨0, 1⟩⟩]).map
        (fun e => (e.id, e.visible)) =
      [("acoes", .vBool true), ("urf", .vBool false), ("ref_importador", .vBool true),
       ("importador", .vBool true), ("data_abertura", .vBool true), ("exportador", .vBool true),
       ("modal", .vBool true), ("status", .vBool true), ("custos", .vBool true),
       ("data_chegada", .vBool true), ("presenca_carga", .vBool false),
       ("data_embarque", .vBool false), ("transit_time", .vBool false),
       ("data_registro", .vBool false), ("mercadoria", .vBool true), ("container", .vBool false),
       ("peso_bruto", .vBool false), ("numero_di", .vBool false), ("canal", .vBool false),
       ("pais", .vBool false), ("produtos", .vBool false), ("despesas", .vBool false),
       ("data_desova", .vBool false), ("limite_primeiro_periodo", .vBool false),
       ("limite_segundo_periodo", .vBool false), ("dias_extras_armazenagem", .vBool false),
       ("valor_despesas_extras", .vBool false), ("po_cliente", .vBool false),
       ("referencia_exportador", .vBool false), ("codigo_produto", .vBool false),
       ("filial_codigo", .vBool false), ("licenca_importacao", .vBool false),
       ("freetime", .vBool false), ("etb", .vBool false), ("navio", .vBool false),
       ("armador_agente_trade", .vBool false), ("moeda", .vBool false),
       ("total_pedido_moeda_origem", .vBool false), ("ptax", .vBool false),
       ("incoterm", .vBool false)]
    ∧ ((normalizeColumnsConfig [⟨"urf", .vBool false, .vNum ⟨0, 1⟩⟩]).map (·.id)).filter
        (· ≠ "urf") =
      ((normalizeColumnsConfig getDefaultColumnsConfig).map (·.id)).filter (· ≠ "urf") := by
  decide

/-! ## Cache store (C4, C5, C8) -/

/-- C4 counterexample: `set('kpis', X)` immediately followed by
`get('kpis')` does *not* return `X` for every value `X` — for the falsy
value `0` the `this[type]` truthiness check in `get` fails and `get`
returns nothing. -/
theorem c4_counterexample_falsy_value :
    cacheGet 100 (cacheSet cacheInit .kpis (.vNum ⟨0, 1⟩) 100) .kpis ≠ some (.vNum ⟨0, 1⟩)
    ∧ cacheGet 100 (cacheSet cacheInit .kpis (.vNum ⟨0, 1⟩) 100) .kpis = none := by
  decide

theorem slot_setSlot_ne (c : CacheState) {k₁ k₂ : CacheKind} (h : k₁ ≠ k₂) (v : JSValue) :
    (c.setSlot k₂ v).slot k₁ = c.slot k₁ := by
  cases k₁ <;> cases k₂ <;> first | rfl | exact absurd rfl h

/-- C4 (amended): for every *truthy* value `X`, `set('kpis', X)` followed
by `get('kpis')` at the same instant returns `X`; after `invalidate()`,
`get` of any kind returns nothing (even though `set` was never called
again); and once `cacheTimeout` has elapsed since the last `set`, `get` of
any kind returns nothing. -/
theorem c4_cache_get_set_invalidate_ttl :
    (∀ (c : CacheState) (X : JSValue) (t : Nat), truthy X = true →
      cacheGet t (cacheSet c .kpis X t) .kpis = some X)
    ∧ (∀ (c : CacheState) (t : Nat) (k : CacheKind), cacheGet t (cacheInvalidate c) k = none)
    ∧ (∀ (c : CacheState) (t₀ t : Nat) (k : CacheKind), c.lastUpdate = some t₀ →
      t₀ + cacheTimeout ≤ t → cacheGet t c k = none) := by
  refine ⟨?_, ?_, ?_⟩
  · intro c X t hX
    simp [cacheGet, cacheSet, cacheIsValid, CacheState.setSlot, CacheState.slot, hX, cacheTimeout]
  · intro c t k
    simp [cacheGet, cacheInvalidate, cacheIsValid]
  · intro c t₀ t k h₀ ht
    have hv : cacheIsValid t c = false := by
      simp only [cacheIsValid, h₀]
      simp only [decide_eq_false_iff_not, not_lt]
      omega
    simp [cacheGet, hv]

/-- Witness for C4: the truthy object value `X` stored at `t = 5` is
returned by an immediate `get`; `invalidate` and TTL expiry each make
`get` return nothing. -/
theorem c4_cache_get_set_invalidate_ttl_witness :
    cacheGet 5 (cacheSet cacheInit .kpis (.vObj "kpi-payload") 5) .kpis =
        some (.vObj "kpi-payload")
    ∧ cacheGet 5 (cacheInvalidate (cacheSet cacheInit .kpis (.vObj "kpi-payload") 5)) .kpis = none
    ∧ cacheGet (5 + cacheTimeout) (cacheSet cacheInit .kpis (.vObj "kpi-payload") 5) .kpis =
        none := by
  obtain ⟨h₁, h₂, h₃⟩ := c4_cache_get_set_invalidate_ttl
  exact ⟨h₁ cacheInit (.vObj "kpi-payload") 5 (by decide),
    h₂ (cacheSet cacheInit .kpis (.vObj "kpi-payload") 5) 5 .kpis,
    h₃ (cacheSet cacheInit .kpis (.vObj "kpi-payload") 5) 5 (5 + cacheTimeout) .kpis rfl
      (Nat.le_refl _)⟩

/-- C5 counterexample: `invalidate()` does *not* clear every stored value —
a stored `filterOptions` payload survives `invalidate()` unchanged. -/
theorem c5_counterexample_filterOptions_survives :
    (cacheInvalidate { cacheInit with filterOptions := .vObj "opts" }).filterOptions =
        .vObj "opts"
    ∧ (.vObj "opts" : JSValue) ≠ .vNull := by
  exact ⟨rfl, by decide⟩

/-- C5 (amended): `invalidate()` clears the `kpis`, `charts` and
`operations` values and the shared `lastUpdate` timestamp, but leaves the
`filterOptions` value in place (only the cleared timestamp prevents
`get('filterOptions')` from serving it until the next `set`). -/
theorem c5_invalidate_clears_except_filterOptions (c : CacheState) :
    (cacheInvalidate c).kpis = .vNull
    ∧ (cacheInvalidate c).charts = .vNull
    ∧ (cacheInvalidate c).operations = .vNull
    ∧ (cacheInvalidate c).lastUpdate = none
    ∧ (cacheInvalidate c).filterOptions = c.filterOptions :=
  ⟨rfl, rfl, rfl, rfl, rfl⟩

/-- C8: cache validity is global across kinds — one shared timestamp.  If
kind `k₁` holds a (truthy) value and `set(k₂, v)` with `k₁ ≠ k₂` executes
at `tset`, then `get(k₁)` at any instant less than `cacheTimeout` after
`tset` returns the stored `k₁` value, regardless of how long ago `k₁`
itself was stored. -/
theorem c8_cache_shared_timestamp (c : CacheState) (k₁ k₂ : CacheKind) (v : JSValue)
    (tset tget : Nat) (hne : k₁ ≠ k₂) (htruthy : truthy (c.slot k₁) = true)
    (h₁ : tset ≤ tget) (h₂ : tget < tset + cacheTimeout) :
    cacheGet tget (cacheSet c k₂ v tset) k₁ = some (c.slot k₁) := by
  have hslot : (cacheSet c k₂ v tset).slot k₁ = c.slot k₁ := slot_setSlot_ne c hne v
  have hvalid : cacheIsValid tget (cacheSet c k₂ v tset) = true := by
    simp only [cacheIsValid, cacheSet]
    simp only [decide_eq_true_eq]
    omega
  simp [cacheGet, hvalid, hslot, htruthy]

/-- Witness for C8: `kpis` stored at time 0, `charts` set at
`t = 10 * cacheTimeout` (long after the kpis entry itself went stale);
`get('kpis')` one millisecond later still returns the stored kpis value. -/
theorem c8_cache_shared_timestamp_witness :
    cacheGet (10 * cacheTimeout + 1)
      (cacheSet { cacheInit with kpis := .vObj "K", lastUpdate := some 0 } .charts (.vObj "C")
        (10 * cacheTimeout))
      .kpis = some (.vObj "K") := by
  have h := c8_cache_shared_timestamp
    { cacheInit with kpis := .vObj "K", lastUpdate := some 0 } .kpis .charts (.vObj "C")
    (10 * cacheTimeout) (10 * cacheTimeout + 1) (by decide) (by decide)
    (by omega) (by simp [cacheTimeout])
  exact h

/-! ## `escapeHtml` (C10) -/

theorem replaceAllChar_append (u v : List Char) (c : Char) (rep : List Char) :
    replaceAllChar (u ++ v) c rep = replaceAllChar u c rep ++ replaceAllChar v c rep := by
  simp [replaceAllChar]

theorem chainSingle (a : Char) :
    replaceAllChar (replaceAllChar (replaceAllChar (replaceAllChar
      (replaceAllChar [a] '&' "&amp;".data) '<' "&lt;".data) '>' "&gt;".data)
      '"' "&quot;".data) apos "&#39;".data = escapeChar a := by
  by_cases h1 : a = '&'
  · subst h1; rfl
  by_cases h2 : a = '<'
  · subst h2; rfl
  by_cases h3 : a = '>'
  · subst h3; rfl
  by_cases h4 : a = '"'
  · subst h4; rfl
  by_cases h5 : a = apos
  · subst h5; rfl
  simp [replaceAllChar, escapeChar, h1, h2, h3, h4, h5]

theorem escapeChain (l : List Char) :
    replaceAllChar (replaceAllChar (replaceAllChar (replaceAllChar
      (replaceAllChar l '&' "&amp;".data) '<' "&lt;".data) '>' "&gt;".data)
      '"' "&quot;".data) apos "&#39;".data = l.flatMap escapeChar := by
  induction l with
  | nil => rfl
  | cons a t ih =>
    rw [List.flatMap_cons, ← chainSingle a, ← ih]
    conv_lhs => rw [show (a :: t) = [a] ++ t from rfl]
    rw [replaceAllChar_append, replaceAllChar_append, replaceAllChar_append,
      replaceAllChar_append, replaceAllChar_append]

theorem escapeHtml_data (v : JSValue) (h₁ : v ≠ .vNull) (h₂ : v ≠ .vUndefined) :
    (escapeHtml v).data = (jsToString v).data.flatMap escapeChar := by
  rw [← escapeChain]
  cases v with
  | vNull => exact absurd rfl h₁
  | vUndefined => exact absurd rfl h₂
  | vBool b => rfl
  | vNum n => rfl
  | vStr s => rfl
  | vObj tag => rfl
  | vArr tag => rfl

theorem noDangerous_flatMap (l : List Char) :
    noDangerousChars (l.flatMap escapeChar) = true := by
  induction l with
  | nil => rfl
  | cons a t ih =>
    rw [List.flatMap_cons]
    by_cases h1 : a = '&'
    · subst h1; exact ih
    by_cases h2 : a = '<'
    · subst h2; exact ih
    by_cases h3 : a = '>'
    · subst h3; exact ih
    by_cases h4 : a = '"'
    · subst h4; exact ih
    by_cases h5 : a = apos
    · subst h5; exact ih
    have he : escapeChar a = [a] := by simp [escapeChar, h1, h2, h3, h4, h5]
    have ih' := ih
    simp only [noDangerousChars] at ih'
    rw [he, List.singleton_append]
    simp only [noDangerousChars, List.all_cons, Bool.and_eq_true]
    exact ⟨by simp [h2, h3, h4, h5], ih'⟩

theorem ampWellFormed_flatMap (l : List Char) :
    ampWellFormed (l.flatMap escapeChar) = true := by
  induction l with
  | nil => rfl
  | cons a t ih =>
    rw [List.flatMap_cons]
    by_cases h1 : a = '&'
    · subst h1; exact ih
    by_cases h2 : a = '<'
    · subst h2; exact ih
    by_cases h3 : a = '>'
    · subst h3; exact ih
    by_cases h4 : a = '"'
    · subst h4; exact ih
    by_cases h5 : a = apos
    · subst h5; exact ih
    have he : escapeChar a = [a] := by simp [escapeChar, h1, h2, h3, h4, h5]
    rw [he, List.singleton_append]
    simp only [ampWellFormed, Bool.and_eq_true]
    exact ⟨by simp [h1], ih⟩

/-- C10: for every input value, `escapeHtml` returns a string containing
no `<`, `>`, `"` or apostrophe, in which every `&` begins one of the five
entities `&amp;` `&lt;` `&gt;` `&quot;` `&#39;`; for `null` and `undefined`
it returns the empty string. -/
theorem c10_escapeHtml_escapes_everything :
    (∀ v : JSValue, noDangerousChars (escapeHtml v).data = true
      ∧ ampWellFormed (escapeHtml v).data = true)
    ∧ escapeHtml .vNull = "" ∧ escapeHtml .vUndefined = "" := by
  refine ⟨fun v => ?_, rfl, rfl⟩
  by_cases h₁ : v = .vNull
  · subst h₁; exact ⟨rfl, rfl⟩
  by_cases h₂ : v = .vUndefined
  · subst h₂; exact ⟨rfl, rfl⟩
  rw [escapeHtml_data v h₁ h₂]
  exact ⟨noDangerous_flatMap _, ampWellFormed_flatMap _⟩

/-! ## Row rendering over the all-absent record (C9) -/

/-- C9 counterexample: for the record with every optional field absent, the
`custos` cell does *not* contain the placeholder `-`: its text content is
the zero-currency string `R$ 0,00` (which has no `-` in it), because the
renderer formats the defaulted total `0` through `formatCurrency` instead
of emitting the placeholder. -/
theorem c9_counterexample_custos_cell :
    stripTags (renderRow bareCtx ["custos"] emptyOperation) = "R$ 0,00"
    ∧ containsSubstr (stripTags (renderRow bareCtx ["custos"] emptyOperation)) "-" = false := by
  decide

/-- C9 (amended): rendering the all-absent record never throws and never
drops the row — over any non-empty list of visible columns the row is
exactly one cell per column, in order; every registry column except
`acoes`, `status` and `custos` renders the placeholder `-` as its cell
text; a column id unknown to the dispatch renders the placeholder cell
`<td>-</td>`; and the three exceptions render their declared empty states:
`acoes` an icon-only button (empty text), `status` a `Sem Info` badge, and
`custos` the zero-currency string `R$ 0,00`. -/
theorem c9_renderRow_empty_record (visibleColumns : List String)
    (h : visibleColumns ≠ []) :
    renderRow bareCtx visibleColumns emptyOperation =
      joinSep "" (visibleColumns.map (renderOperationCell bareCtx emptyOperation))
    ∧ (∀ cid ∈ AVAILABLE_COLUMNS.map (·.id), cid ∉ ["acoes", "status", "custos"] →
        cellText (renderOperationCell bareCtx emptyOperation cid) = "-")
    ∧ (∀ cid ∉ AVAILABLE_COLUMNS.map (·.id),
        renderOperationCell bareCtx emptyOperation cid = "<td>-</td>")
    ∧ cellText (renderOperationCell bareCtx emptyOperation "acoes") = ""
    ∧ cellText (renderOperationCell bareCtx emptyOperation "status") = "Sem Info"
    ∧ cellText (renderOperationCell bareCtx emptyOperation "custos") = "R$ 0,00" := by
  refine ⟨?_, by decide, ?_, by decide, by decide, by decide⟩
  · cases visibleColumns with
    | nil => exact absurd rfl h
    | cons c cs => rfl
  · intro cid hreg
    have hne : ∀ s : String, s ∈ AVAILABLE_COLUMNS.map (·.id) → ¬(cid = s) :=
      fun s hs hEq => hreg (hEq ▸ hs)
    simp only [renderOperationCell]
    rw [if_neg (hne "acoes" (by decide)), if_neg (hne "ref_importador" (by decide)),
      if_neg (hne "importador" (by decide)), if_neg (hne "data_abertura" (by decide)),
      if_neg (hne "exportador" (by decide)), if_neg (hne "modal" (by decide)),
      if_neg (hne "status" (by decide)), if_neg (hne "custos" (by decide)),
      if_neg (hne "data_chegada" (by decide)), if_neg (hne "presenca_carga" (by decide)),
      if_neg (hne "data_embarque" (by decide)), if_neg (hne "transit_time" (by decide)),
      if_neg (hne "mercadoria" (by decide)), if_neg (hne "produtos" (by decide)),
      if_neg (hne "container" (by decide)), if_neg (hne "peso_bruto" (by decide)),
      if_neg (hne "despesas" (by decide)), if_neg (hne "urf" (by decide)),
      if_neg (hne "numero_di" (by decide)), if_neg (hne "data_registro" (by decide)),
      if_neg (hne "canal" (by decide)), if_neg (hne "pais" (by decide)),
      if_neg (hne "data_desova" (by decide)),
      if_neg (hne "limite_primeiro_periodo" (by decide)),
      if_neg (hne "limite_segundo_periodo" (by decide)),
      if_neg (hne "dias_extras_armazenagem" (by decide)),
      if_neg (hne "valor_despesas_extras" (by decide)),
      if_neg (hne "po_cliente" (by decide)),
      if_neg (hne "referencia_exportador" (by decide)),
      if_neg (hne "codigo_produto" (by decide)), if_neg (hne "filial_codigo" (by decide)),
      if_neg (hne "licenca_importacao" (by decide)), if_neg (hne "freetime" (by decide)),
      if_neg (hne "etb" (by decide)), if_neg (hne "navio" (by decide)),
      if_neg (hne "armador_agente_trade" (by decide)), if_neg (hne "moeda" (by decide)),
      if_neg (hne "total_pedido_moeda_origem" (by decide)),
      if_neg (hne "ptax" (by decide)), if_neg (hne "incoterm" (by decide))]

/-- Witness for C9 at the concrete column list `["urf", "zzz-unknown"]`:
the row is the two cells joined, the `urf` cell text is the placeholder,
and the unknown id renders the placeholder cell. -/
theorem c9_renderRow_empty_record_witness :
    renderRow bareCtx ["urf", "zzz-unknown"] emptyOperation =
      joinSep "" (["urf", "zzz-unknown"].map (renderOperationCell bareCtx emptyOperation))
    ∧ cellText (renderOperationCell bareCtx emptyOperation "urf") = "-"
    ∧ renderOperationCell bareCtx emptyOperation "zzz-unknown" = "<td>-</td>" := by
  obtain ⟨hjoin, hdash, hunknown, -, -, -⟩ :=
    c9_renderRow_empty_record ["urf", "zzz-unknown"] (by decide)
  exact ⟨hjoin, hdash "urf" (by decide) (by decide), hunknown "zzz-unknown" (by decide)⟩

/-! ## Retry loaders (C2, C3) -/

theorem delaysUpTo_mono {a b : Nat} (h : a ≤ b) : delaysUpTo a ≤ delaysUpTo b := by
  induction h with
  | refl => exact Nat.le_refl _
  | step h ih => exact Nat.le_trans ih (Nat.le_add_right _ _)

theorem loadKPIsGo_success
    (outcomes : Nat → FetchOutcome) (maxRetries N : Nat) (r : ApiResult)
    (hNhi : N ≤ maxRetries) (hsucc : outcomes N = .ok r)
    (hr : (truthy r.success && truthy r.kpis) = true)
    (hfail : ∀ k, 1 ≤ k → k < N → kpisSuccess (outcomes k) = false) :
    ∀ f attempt st, f = maxRetries + 1 - attempt → 1 ≤ attempt → attempt ≤ N →
      loadKPIsGo outcomes maxRetries f attempt st =
        ({ st with
            fetchCount := st.fetchCount + (N + 1 - attempt),
            now := st.now + (delaysUpTo N - delaysUpTo attempt),
            cache := cacheSet st.cache .kpis r.kpis
              (st.now + (delaysUpTo N - delaysUpTo attempt)),
            uiKpis := st.uiKpis ++ [r.kpis] },
         Except.ok ()) := by
  intro f
  induction f with
  | zero =>
    intro attempt st hf h1 h2
    exfalso
    omega
  | succ f ih =>
    intro attempt st hf h1 h2
    by_cases hA : attempt = N
    · subst hA
      simp only [loadKPIsGo]
      rw [hsucc]
      dsimp only
      rw [hr, if_pos (rfl : true = true)]
      have e₁ : attempt + 1 - attempt = 1 := by omega
      rw [e₁, Nat.sub_self]
      simp
    · have hlt : attempt < N := by omega
      have hfailA := hfail attempt h1 hlt
      simp only [loadKPIsGo]
      have hdm : delaysUpTo (attempt + 1) ≤ delaysUpTo N := delaysUpTo_mono (by omega)
      have hd : delaysUpTo (attempt + 1) = delaysUpTo attempt + 1000 * attempt := rfl
      have e₂ : st.now + 1000 * attempt + (delaysUpTo N - delaysUpTo (attempt + 1)) =
          st.now + (delaysUpTo N - delaysUpTo attempt) := by omega
      cases ho : outcomes attempt with
      | exn e =>
        dsimp only
        rw [if_neg (by omega : ¬ attempt = maxRetries)]
        rw [ih (attempt + 1) _ (by omega) (by omega) (by omega)]
        simp [e₂]
        omega
      | ok r' =>
        have hcond : (truthy r'.success && truthy r'.kpis) = false := by
          simpa [kpisSuccess, ho] using hfailA
        dsimp only
        rw [hcond, if_neg (by decide : ¬ (false = true))]
        rw [if_neg (by omega : ¬ attempt = maxRetries)]
        rw [ih (attempt + 1) _ (by omega) (by omega) (by omega)]
        simp [e₂]
        omega

theorem loadKPIsGo_allFail
    (outcomes : Nat → FetchOutcome) (maxRetries : Nat)
    (hfail : ∀ k, 1 ≤ k → k ≤ maxRetries → kpisSuccess (outcomes k) = false) :
    ∀ f attempt st, f = maxRetries + 1 - attempt → 1 ≤ attempt → attempt ≤ maxRetries →
      loadKPIsGo outcomes maxRetries f attempt st =
        (match cacheGet (st.now + (delaysUpTo maxRetries - delaysUpTo attempt))
            st.cache .kpis with
         | some cached =>
           ({ st with
               fetchCount := st.fetchCount + (maxRetries + 1 - attempt),
               now := st.now + (delaysUpTo maxRetries - delaysUpTo attempt),
               uiKpis := st.uiKpis ++ [cached] },
            Except.ok ())
         | none =>
           ({ st with
               fetchCount := st.fetchCount + (maxRetries + 1 - attempt),
               now := st.now + (delaysUpTo maxRetries - delaysUpTo attempt) },
            Except.error (kpisFailMsg (outcomes maxRetries)))) := by
  intro f
  induction f with
  | zero =>
    intro attempt st hf h1 h2
    exfalso
    omega
  | succ f ih =>
    intro attempt st hf h1 h2
    by_cases hA : attempt = maxRetries
    · subst hA
      simp only [loadKPIsGo]
      have e₁ : attempt + 1 - attempt = 1 := by omega
      simp only [e₁, Nat.sub_self, Nat.add_zero]
      cases ho : outcomes attempt with
      | exn e =>
        dsimp only
        simp only [if_true]
        cases hc : cacheGet st.now st.cache .kpis with
        | some cached => simp [hc]
        | none => simp [hc, kpisFailMsg, ho]
      | ok r' =>
        have hcond : (truthy r'.success && truthy r'.kpis) = false := by
          simpa [kpisSuccess, ho] using hfail attempt h1 (by omega)
        dsimp only
        rw [hcond, if_neg (by decide : ¬ (false = true))]
        simp only [if_true]
        cases hc : cacheGet st.now st.cache .kpis with
        | some cached => simp [hc]
        | none => simp [hc, kpisFailMsg, ho, errMessage]
    · have hlt : attempt < maxRetries := by omega
      have e₁ : st.fetchCount + 1 + (maxRetries + 1 - (attempt + 1)) =
          st.fetchCount + (maxRetries + 1 - attempt) := by omega
      have hdm : delaysUpTo (attempt + 1) ≤ delaysUpTo maxRetries := delaysUpTo_mono (by omega)
      have hd : delaysUpTo (attempt + 1) = delaysUpTo attempt + 1000 * attempt := rfl
      have e₂ : st.now + 1000 * attempt + (delaysUpTo maxRetries - delaysUpTo (attempt + 1)) =
          st.now + (delaysUpTo maxRetries - delaysUpTo attempt) := by omega
      simp only [loadKPIsGo]
      cases ho : outcomes attempt with
      | exn e =>
        dsimp only
        rw [if_neg (by omega : ¬ attempt = maxRetries)]
        rw [ih (attempt + 1) _ (by omega) (by omega) (by omega)]
        simp only [e₁, e₂]
      | ok r' =>
        have hcond : (truthy r'.success && truthy r'.kpis) = false := by
          simpa [kpisSuccess, ho] using hfail attempt h1 (by omega)
        dsimp only
        rw [hcond, if_neg (by decide : ¬ (false = true))]
        rw [if_neg (by omega : ¬ attempt = maxRetries)]
        rw [ih (attempt + 1) _ (by omega) (by omega) (by omega)]
        simp only [e₁, e₂]

theorem loadChartsGo_success
    (outcomes : Nat → FetchOutcome) (maxRetries N : Nat) (r : ApiResult)
    (hNhi : N ≤ maxRetries) (hsucc : outcomes N = .ok r)
    (hr : (truthy r.success && truthy r.charts) = true)
    (hfail : ∀ k, 1 ≤ k → k < N → chartsSuccess (outcomes k) = false) :
    ∀ f attempt st, f = maxRetries + 1 - attempt → 1 ≤ attempt → attempt ≤ N →
      loadChartsGo outcomes maxRetries f attempt st =
        ({ st with
            fetchCount := st.fetchCount + (N + 1 - attempt),
            now := st.now + (delaysUpTo N - delaysUpTo attempt),
            cache := cacheSet st.cache .charts r.charts
              (st.now + (delaysUpTo N - delaysUpTo attempt)),
            chartsRendered := st.chartsRendered ++ [r.charts],
            canViewMaterials :=
              if r.can_view_materials ≠ .vUndefined then some r.can_view_materials
              else st.canViewMaterials },
         Except.ok ()) := by
  intro f
  induction f with
  | zero =>
    intro attempt st hf h1 h2
    exfalso
    omega
  | succ f ih =>
    intro attempt st hf h1 h2
    by_cases hA : attempt = N
    · subst hA
      simp only [loadChartsGo]
      rw [hsucc]
      dsimp only
      rw [hr, if_pos (rfl : true = true)]
      have e₁ : attempt + 1 - attempt = 1 := by omega
      rw [e₁, Nat.sub_self]
      by_cases hcv : r.can_view_materials = JSValue.vUndefined <;> simp [hcv]
    · have hlt : attempt < N := by omega
      have hfailA := hfail attempt h1 hlt
      simp only [loadChartsGo]
      have hdm : delaysUpTo (attempt + 1) ≤ delaysUpTo N := delaysUpTo_mono (by omega)
      have hd : delaysUpTo (attempt + 1) = delaysUpTo attempt + 1000 * attempt := rfl
      have e₂ : st.now + 1000 * attempt + (delaysUpTo N - delaysUpTo (attempt + 1)) =
          st.now + (delaysUpTo N - delaysUpTo attempt) := by omega
      cases ho : outcomes attempt with
      | exn e =>
        dsimp only
        rw [if_neg (by omega : ¬ attempt = maxRetries)]
        rw [ih (attempt + 1) _ (by omega) (by omega) (by omega)]
        simp [e₂]
        omega
      | ok r' =>
        have hcond : (truthy r'.success && truthy r'.charts) = false := by
          simpa [chartsSuccess, ho] using hfailA
        dsimp only
        rw [hcond, if_neg (by decide : ¬ (false = true))]
        rw [if_neg (by omega : ¬ attempt = maxRetries)]
        rw [ih (attempt + 1) _ (by omega) (by omega) (by omega)]
        simp [e₂]
        omega

theorem loadChartsGo_allFail
    (outcomes : Nat → FetchOutcome) (maxRetries : Nat)
    (hfail : ∀ k, 1 ≤ k → k ≤ maxRetries → chartsSuccess (outcomes k) = false) :
    ∀ f attempt st, f = maxRetries + 1 - attempt → 1 ≤ attempt → attempt ≤ maxRetries →
      loadChartsGo outcomes maxRetries f attempt st =
        (match cacheGet (st.now + (delaysUpTo maxRetries - delaysUpTo attempt))
            st.cache .charts with
         | some cached =>
           ({ st with
               fetchCount := st.fetchCount + (maxRetries + 1 - attempt),
               now := st.now + (delaysUpTo maxRetries - delaysUpTo attempt),
               chartsRendered := st.chartsRendered ++ [cached] },
            Except.ok ())
         | none =>
           ({ st with
               fetchCount := st.fetchCount + (maxRetries + 1 - attempt),
               now := st.now + (delaysUpTo maxRetries - delaysUpTo attempt),
               emptyChartsCalls := st.emptyChartsCalls + 1 },
            Except.error (chartsFailMsg (outcomes maxRetries)))) := by
  intro f
  induction f with
  | zero =>
    intro attempt st hf h1 h2
    exfalso
    omega
  | succ f ih =>
    intro attempt st hf h1 h2
    by_cases hA : attempt = maxRetries
    · subst hA
      simp only [loadChartsGo]
      have e₁ : attempt + 1 - attempt = 1 := by omega
      simp only [e₁, Nat.sub_self, Nat.add_zero]
      cases ho : outcomes attempt with
      | exn e =>
        dsimp only
        simp only [if_true]
        cases hc : cacheGet st.now st.cache .charts with
        | some cached => simp [hc]
        | none => simp [hc, chartsFailMsg, ho]
      | ok r' =>
        have hcond : (truthy r'.success && truthy r'.charts) = false := by
          simpa [chartsSuccess, ho] using hfail attempt h1 (by omega)
        dsimp only
        rw [hcond, if_neg (by decide : ¬ (false = true))]
        simp only [if_true]
        cases hc : cacheGet st.now st.cache .charts with
        | some cached => simp [hc]
        | none => simp [hc, chartsFailMsg, ho, errMessage]
    · have hlt : attempt < maxRetries := by omega
      have e₁ : st.fetchCount + 1 + (maxRetries + 1 - (attempt + 1)) =
          st.fetchCount + (maxRetries + 1 - attempt) := by omega
      have hdm : delaysUpTo (attempt + 1) ≤ delaysUpTo maxRetries := delaysUpTo_mono (by omega)
      have hd : delaysUpTo (attempt + 1) = delaysUpTo attempt + 1000 * attempt := rfl
      have e₂ : st.now + 1000 * attempt + (delaysUpTo maxRetries - delaysUpTo (attempt + 1)) =
          st.now + (delaysUpTo maxRetries - delaysUpTo attempt) := by omega
      simp only [loadChartsGo]
      cases ho : outcomes attempt with
      | exn e =>
        dsimp only
        rw [if_neg (by omega : ¬ attempt = maxRetries)]
        rw [ih (attempt + 1) _ (by omega) (by omega) (by omega)]
        simp only [e₁, e₂]
      | ok r' =>
        have hcond : (truthy r'.success && truthy r'.charts) = false := by
          simpa [chartsSuccess, ho] using hfail attempt h1 (by omega)
        dsimp only
        rw [hcond, if_neg (by decide : ¬ (false = true))]
        rw [if_neg (by omega : ¬ attempt = maxRetries)]
        rw [ih (attempt + 1) _ (by omega) (by omega) (by omega)]
        simp only [e₁, e₂]

theorem loadOperationsGo_success
    (outcomes : Nat → FetchOutcome) (maxRetries N : Nat) (r : ApiResult)
    (hNhi : N ≤ maxRetries) (hsucc : outcomes N = .ok r)
    (hr : (truthy r.success && truthy r.operations) = true)
    (hfail : ∀ k, 1 ≤ k → k < N → operationsSuccess (outcomes k) = false) :
    ∀ f attempt st, f = maxRetries + 1 - attempt → 1 ≤ attempt → attempt ≤ N →
      loadOperationsGo outcomes maxRetries f attempt st =
        ({ st with
            fetchCount := st.fetchCount + (N + 1 - attempt),
            now := st.now + (delaysUpTo N - delaysUpTo attempt),
            cache := cacheSet st.cache .operations
              (if truthy r.operations_all then r.operations_all else r.operations)
              (st.now + (delaysUpTo N - delaysUpTo attempt)),
            uiOperations := st.uiOperations ++
              [if truthy r.operations_all then r.operations_all else r.operations] },
         Except.ok ()) := by
  intro f
  induction f with
  | zero =>
    intro attempt st hf h1 h2
    exfalso
    omega
  | succ f ih =>
    intro attempt st hf h1 h2
    by_cases hA : attempt = N
    · subst hA
      simp only [loadOperationsGo]
      rw [hsucc]
      dsimp only
      rw [hr, if_pos (rfl : true = true)]
      have e₁ : attempt + 1 - attempt = 1 := by omega
      rw [e₁, Nat.sub_self]
      simp
    · have hlt : attempt < N := by omega
      have hfailA := hfail attempt h1 hlt
      simp only [loadOperationsGo]
      have hdm : delaysUpTo (attempt + 1) ≤ delaysUpTo N := delaysUpTo_mono (by omega)
      have hd : delaysUpTo (attempt + 1) = delaysUpTo attempt + 1000 * attempt := rfl
      have e₂ : st.now + 1000 * attempt + (delaysUpTo N - delaysUpTo (attempt + 1)) =
          st.now + (delaysUpTo N - delaysUpTo attempt) := by omega
      cases ho : outcomes attempt with
      | exn e =>
        dsimp only
        rw [if_neg (by omega : ¬ attempt = maxRetries)]
        rw [ih (attempt + 1) _ (by omega) (by omega) (by omega)]
        simp [e₂]
        omega
      | ok r' =>
        have hcond : (truthy r'.success && truthy r'.operations) = false := by
          simpa [operationsSuccess, ho] using hfailA
        dsimp only
        rw [hcond, if_neg (by decide : ¬ (false = true))]
        rw [if_neg (by omega : ¬ attempt = maxRetries)]
        rw [ih (attempt + 1) _ (by omega) (by omega) (by omega)]
        simp [e₂]
        omega

theorem loadOperationsGo_allFail
    (outcomes : Nat → FetchOutcome) (maxRetries : Nat)
    (hfail : ∀ k, 1 ≤ k → k ≤ maxRetries → operationsSuccess (outcomes k) = false) :
    ∀ f attempt st, f = maxRetries + 1 - attempt → 1 ≤ attempt → attempt ≤ maxRetries →
      loadOperationsGo outcomes maxRetries f attempt st =
        (match cacheGet (st.now + (delaysUpTo maxRetries - delaysUpTo attempt))
            st.cache .operations with
         | some cached =>
           ({ st with
               fetchCount := st.fetchCount + (maxRetries + 1 - attempt),
               now := st.now + (delaysUpTo maxRetries - delaysUpTo attempt),
               uiOperations := st.uiOperations ++ [cached] },
            Except.ok ())
         | none =>
           ({ st with
               fetchCount := st.fetchCount + (maxRetries + 1 - attempt),
               now := st.now + (delaysUpTo maxRetries - delaysUpTo attempt),
               uiOperations := st.uiOperations ++ [emptyOperationsValue] },
            Except.error (operationsFailMsg (outcomes maxRetries)))) := by
  intro f
  induction f with
  | zero =>
    intro attempt st hf h1 h2
    exfalso
    omega
  | succ f ih =>
    intro attempt st hf h1 h2
    by_cases hA : attempt = maxRetries
    · subst hA
      simp only [loadOperationsGo]
      have e₁ : attempt + 1 - attempt = 1 := by omega
      simp only [e₁, Nat.sub_self, Nat.add_zero]
      cases ho : outcomes attempt with
      | exn e =>
        dsimp only
        simp only [if_true]
        cases hc : cacheGet st.now st.cache .operations with
        | some cached => simp [hc]
        | none => simp [hc, operationsFailMsg, ho]
      | ok r' =>
        have hcond : (truthy r'.success && truthy r'.operations) = false := by
          simpa [operationsSuccess, ho] using hfail attempt h1 (by omega)
        dsimp only
        rw [hcond, if_neg (by decide : ¬ (false = true))]
        simp only [if_true]
        cases hc : cacheGet st.now st.cache .operations with
        | some cached => simp [hc]
        | none => simp [hc, operationsFailMsg, ho, errMessage]
    · have hlt : attempt < maxRetries := by omega
      have e₁ : st.fetchCount + 1 + (maxRetries + 1 - (attempt + 1)) =
          st.fetchCount + (maxRetries + 1 - attempt) := by omega
      have hdm : delaysUpTo (attempt + 1) ≤ delaysUpTo maxRetries := delaysUpTo_mono (by omega)
      have hd : delaysUpTo (attempt + 1) = delaysUpTo attempt + 1000 * attempt := rfl
      have e₂ : st.now + 1000 * attempt + (delaysUpTo maxRetries - delaysUpTo (attempt + 1)) =
          st.now + (delaysUpTo maxRetries - delaysUpTo attempt) := by omega
      simp only [loadOperationsGo]
      cases ho : outcomes attempt with
      | exn e =>
        dsimp only
        rw [if_neg (by omega : ¬ attempt = maxRetries)]
        rw [ih (attempt + 1) _ (by omega) (by omega) (by omega)]
        simp only [e₁, e₂]
      | ok r' =>
        have hcond : (truthy r'.success && truthy r'.operations) = false := by
          simpa [operationsSuccess, ho] using hfail attempt h1 (by omega)
        dsimp only
        rw [hcond, if_neg (by decide : ¬ (false = true))]
        rw [if_neg (by omega : ¬ attempt = maxRetries)]
        rw [ih (attempt + 1) _ (by omega) (by omega) (by omega)]
        simp only [e₁, e₂]

theorem loadFilterOptionsGo_success
    (outcomes : Nat → FetchOutcome) (maxRetries N : Nat) (r : ApiResult)
    (hNhi : N ≤ maxRetries) (hsucc : outcomes N = .ok r)
    (hr : (truthy r.success && truthy r.options) = true)
    (hfail : ∀ k, 1 ≤ k → k < N → filterOptionsSuccess (outcomes k) = false) :
    ∀ f attempt st, f = maxRetries + 1 - attempt → 1 ≤ attempt → attempt ≤ N →
      loadFilterOptionsGo outcomes maxRetries f attempt st =
        ({ st with
            fetchCount := st.fetchCount + (N + 1 - attempt),
            now := st.now + (delaysUpTo N - delaysUpTo attempt),
            cache := cacheSet st.cache .filterOptions r.options
              (st.now + (delaysUpTo N - delaysUpTo attempt)),
            uiFilterOptions := st.uiFilterOptions ++ [r.options] },
         Except.ok ()) := by
  intro f
  induction f with
  | zero =>
    intro attempt st hf h1 h2
    exfalso
    omega
  | succ f ih =>
    intro attempt st hf h1 h2
    by_cases hA : attempt = N
    · subst hA
      simp only [loadFilterOptionsGo]
      rw [hsucc]
      dsimp only
      rw [hr, if_pos (rfl : true = true)]
      have e₁ : attempt + 1 - attempt = 1 := by omega
      rw [e₁, Nat.sub_self]
      simp
    · have hlt : attempt < N := by omega
      have hfailA := hfail attempt h1 hlt
      simp only [loadFilterOptionsGo]
      have hdm : delaysUpTo (attempt + 1) ≤ delaysUpTo N := delaysUpTo_mono (by omega)
      have hd : delaysUpTo (attempt + 1) = delaysUpTo attempt + 1000 * attempt := rfl
      have e₂ : st.now + 1000 * attempt + (delaysUpTo N - delaysUpTo (attempt + 1)) =
          st.now + (delaysUpTo N - delaysUpTo attempt) := by omega
      cases ho : outcomes attempt with
      | exn e =>
        dsimp only
        rw [if_neg (by omega : ¬ attempt = maxRetries)]
        rw [ih (attempt + 1) _ (by omega) (by omega) (by omega)]
        simp [e₂]
        omega
      | ok r' =>
        have hcond : (truthy r'.success && truthy r'.options) = false := by
          simpa [filterOptionsSuccess, ho] using hfailA
        dsimp only
        rw [hcond, if_neg (by decide : ¬ (false = true))]
        rw [if_neg (by omega : ¬ attempt = maxRetries)]
        rw [ih (attempt + 1) _ (by omega) (by omega) (by omega)]
        simp [e₂]
        omega

theorem loadFilterOptionsGo_allFail
    (outcomes : Nat → FetchOutcome) (maxRetries : Nat)
    (hfail : ∀ k, 1 ≤ k → k ≤ maxRetries → filterOptionsSuccess (outcomes k) = false) :
    ∀ f attempt st, f = maxRetries + 1 - attempt → 1 ≤ attempt → attempt ≤ maxRetries →
      loadFilterOptionsGo outcomes maxRetries f attempt st =
        (match cacheGet (st.now + (delaysUpTo maxRetries - delaysUpTo attempt))
            st.cache .filterOptions with
         | some cached =>
           ({ st with
               fetchCount := st.fetchCount + (maxRetries + 1 - attempt),
               now := st.now + (delaysUpTo maxRetries - delaysUpTo attempt),
               uiFilterOptions := st.uiFilterOptions ++ [cached] },
            Except.ok ())
         | none =>
           ({ st with
               fetchCount := st.fetchCount + (maxRetries + 1 - attempt),
               now := st.now + (delaysUpTo maxRetries - delaysUpTo attempt),
               uiFilterOptions := st.uiFilterOptions ++ [emptyFilterOptionsValue] },
            Except.error (filterOptionsFailMsg (outcomes maxRetries)))) := by
  intro f
  induction f with
  | zero =>
    intro attempt st hf h1 h2
    exfalso
    omega
  | succ f ih =>
    intro attempt st hf h1 h2
    by_cases hA : attempt = maxRetries
    · subst hA
      simp only [loadFilterOptionsGo]
      have e₁ : attempt + 1 - attempt = 1 := by omega
      simp only [e₁, Nat.sub_self, Nat.add_zero]
      cases ho : outcomes attempt with
      | exn e =>
        dsimp only
        simp only [if_true]
        cases hc : cacheGet st.now st.cache .filterOptions with
        | some cached => simp [hc]
        | none => simp [hc, filterOptionsFailMsg, ho]
      | ok r' =>
        have hcond : (truthy r'.success && truthy r'.options) = false := by
          simpa [filterOptionsSuccess, ho] using hfail attempt h1 (by omega)
        dsimp only
        rw [hcond, if_neg (by decide : ¬ (false = true))]
        simp only [if_true]
        cases hc : cacheGet st.now st.cache .filterOptions with
        | some cached => simp [hc]
        | none => simp [hc, filterOptionsFailMsg, ho, errMessage]
    · have hlt : attempt < maxRetries := by omega
      have e₁ : st.fetchCount + 1 + (maxRetries + 1 - (attempt + 1)) =
          st.fetchCount + (maxRetries + 1 - attempt) := by omega
      have hdm : delaysUpTo (attempt + 1) ≤ delaysUpTo maxRetries := delaysUpTo_mono (by omega)
      have hd : delaysUpTo (attempt + 1) = delaysUpTo attempt + 1000 * attempt := rfl
      have e₂ : st.now + 1000 * attempt + (delaysUpTo maxRetries - delaysUpTo (attempt + 1)) =
          st.now + (delaysUpTo maxRetries - delaysUpTo attempt) := by omega
      simp only [loadFilterOptionsGo]
      cases ho : outcomes attempt with
      | exn e =>
        dsimp only
        rw [if_neg (by omega : ¬ attempt = maxRetries)]
        rw [ih (attempt + 1) _ (by omega) (by omega) (by omega)]
        simp only [e₁, e₂]
      | ok r' =>
        have hcond : (truthy r'.success && truthy r'.options) = false := by
          simpa [filterOptionsSuccess, ho] using hfail attempt h1 (by omega)
        dsimp only
        rw [hcond, if_neg (by decide : ¬ (false = true))]
        rw [if_neg (by omega : ¬ attempt = maxRetries)]
        rw [ih (attempt + 1) _ (by omega) (by omega) (by omega)]
        simp only [e₁, e₂]

/-- C2 counterexample: the KPIs loader has no empty state.  With a
resource that always fails and an empty cache, `loadDashboardKPIsWithRetry`
performs its attempts and propagates the error, but applies *nothing* to
the UI: the final state differs from the initial one only in the attempt
counter and the clock (`updateDashboardKPIs` is never called — its history
stays empty) — contradicting the claim that every loader applies a
declared empty state in this situation. -/
theorem c2_counterexample_kpis_no_empty_state :
    (loadDashboardKPIsWithRetry (fun _ => .exn "NetworkError") 2 {}).1.uiKpis = []
    ∧ (loadDashboardKPIsWithRetry (fun _ => .exn "NetworkError") 2 {}).1 =
        { cache := cacheInit, now := 1000, fetchCount := 2 }
    ∧ (loadDashboardKPIsWithRetry (fun _ => .exn "NetworkError") 2 {}).2 =
        Except.error "NetworkError" := by
  decide

/-- C2 (amended): for each retry loader, (i) if the resource fails on
attempts `1 .. N-1` and succeeds on attempt `N ≤ maxRetries`, the loader
performs exactly `N` attempts, caches and applies the success value, and
returns normally; (ii) if every attempt fails and the cache serves a value
for the loader's kind at the time of the last attempt, the loader applies
the cached value and returns without throwing; (iii) if every attempt
fails and the cache serves nothing, the charts, operations and
filter-options loaders apply their declared empty states
(`createEmptyCharts()`, `updateRecentOperationsTable([])`,
`populateFilterOptions({...: []})`) and propagate the error — but the KPIs
loader applies no empty state at all: it propagates the error leaving the
KPI UI untouched. -/
theorem c2_retry_loaders :
    (∀ (outcomes : Nat → FetchOutcome) (maxRetries N : Nat) (r : ApiResult) (st : DashState),
      1 ≤ N → N ≤ maxRetries → outcomes N = .ok r →
      (truthy r.success && truthy r.kpis) = true →
      (∀ k, 1 ≤ k → k < N → kpisSuccess (outcomes k) = false) →
      loadDashboardKPIsWithRetry outcomes maxRetries st =
        ({ st with
            fetchCount := st.fetchCount + N,
            now := st.now + delaysUpTo N,
            cache := cacheSet st.cache .kpis r.kpis (st.now + delaysUpTo N),
            uiKpis := st.uiKpis ++ [r.kpis] },
         Except.ok ()))
    ∧ (∀ (outcomes : Nat → FetchOutcome) (maxRetries N : Nat) (r : ApiResult) (st : DashState),
      1 ≤ N → N ≤ maxRetries → outcomes N = .ok r →
      (truthy r.success && truthy r.charts) = true →
      (∀ k, 1 ≤ k → k < N → chartsSuccess (outcomes k) = false) →
      loadDashboardChartsWithRetry outcomes maxRetries st =
        ({ st with
            fetchCount := st.fetchCount + N,
            now := st.now + delaysUpTo N,
            cache := cacheSet st.cache .charts r.charts (st.now + delaysUpTo N),
            chartsRendered := st.chartsRendered ++ [r.charts],
            canViewMaterials :=
              if r.can_view_materials ≠ .vUndefined then some r.can_view_materials
              else st.canViewMaterials },
         Except.ok ()))
    ∧ (∀ (outcomes : Nat → FetchOutcome) (maxRetries N : Nat) (r : ApiResult) (st : DashState),
      1 ≤ N → N ≤ maxRetries → outcomes N = .ok r →
      (truthy r.success && truthy r.operations) = true →
      (∀ k, 1 ≤ k → k < N → operationsSuccess (outcomes k) = false) →
      loadRecentOperationsWithRetry outcomes maxRetries st =
        ({ st with
            fetchCount := st.fetchCount + N,
            now := st.now + delaysUpTo N,
            cache := cacheSet st.cache .operations
              (if truthy r.operations_all then r.operations_all else r.operations)
              (st.now + delaysUpTo N),
            uiOperations := st.uiOperations ++
              [if truthy r.operations_all then r.operations_all else r.operations] },
         Except.ok ()))
    ∧ (∀ (outcomes : Nat → FetchOutcome) (maxRetries N : Nat) (r : ApiResult) (st : DashState),
      1 ≤ N → N ≤ maxRetries → outcomes N = .ok r →
      (truthy r.success && truthy r.options) = true →
      (∀ k, 1 ≤ k → k < N → filterOptionsSuccess (outcomes k) = false) →
      loadFilterOptionsWithRetry outcomes maxRetries st =
        ({ st with
            fetchCount := st.fetchCount + N,
            now := st.now + delaysUpTo N,
            cache := cacheSet st.cache .filterOptions r.options (st.now + delaysUpTo N),
            uiFilterOptions := st.uiFilterOptions ++ [r.options] },
         Except.ok ()))
    ∧ (∀ (outcomes : Nat → FetchOutcome) (maxRetries : Nat) (st : DashState) (v : JSValue),
      1 ≤ maxRetries →
      (∀ k, 1 ≤ k → k ≤ maxRetries → kpisSuccess (outcomes k) = false) →
      cacheGet (st.now + delaysUpTo maxRetries) st.cache .kpis = some v →
      loadDashboardKPIsWithRetry outcomes maxRetries st =
        ({ st with
            fetchCount := st.fetchCount + maxRetries,
            now := st.now + delaysUpTo maxRetries,
            uiKpis := st.uiKpis ++ [v] },
         Except.ok ()))
    ∧ (∀ (outcomes : Nat → FetchOutcome) (maxRetries : Nat) (st : DashState) (v : JSValue),
      1 ≤ maxRetries →
      (∀ k, 1 ≤ k → k ≤ maxRetries → chartsSuccess (outcomes k) = false) →
      cacheGet (st.now + delaysUpTo maxRetries) st.cache .charts = some v →
      loadDashboardChartsWithRetry outcomes maxRetries st =
        ({ st with
            fetchCount := st.fetchCount + maxRetries,
            now := st.now + delaysUpTo maxRetries,
            chartsRendered := st.chartsRendered ++ [v] },
         Except.ok ()))
    ∧ (∀ (outcomes : Nat → FetchOutcome) (maxRetries : Nat) (st : DashState) (v : JSValue),
      1 ≤ maxRetries →
      (∀ k, 1 ≤ k → k ≤ maxRetries → operationsSuccess (outcomes k) = false) →
      cacheGet (st.now + delaysUpTo maxRetries) st.cache .operations = some v →
      loadRecentOperationsWithRetry outcomes maxRetries st =
        ({ st with
            fetchCount := st.fetchCount + maxRetries,
            now := st.now + delaysUpTo maxRetries,
            uiOperations := st.uiOperations ++ [v] },
         Except.ok ()))
    ∧ (∀ (outcomes : Nat → FetchOutcome) (maxRetries : Nat) (st : DashState) (v : JSValue),
      1 ≤ maxRetries →
      (∀ k, 1 ≤ k → k ≤ maxRetries → filterOptionsSuccess (outcomes k) = false) →
      cacheGet (st.now + delaysUpTo maxRetries) st.cache .filterOptions = some v →
      loadFilterOptionsWithRetry outcomes maxRetries st =
        ({ st with
            fetchCount := st.fetchCount + maxRetries,
            now := st.now + delaysUpTo maxRetries,
            uiFilterOptions := st.uiFilterOptions ++ [v] },
         Except.ok ()))
    ∧ (∀ (outcomes : Nat → FetchOutcome) (maxRetries : Nat) (st : DashState),
      1 ≤ maxRetries →
      (∀ k, 1 ≤ k → k ≤ maxRetries → kpisSuccess (outcomes k) = false) →
      cacheGet (st.now + delaysUpTo maxRetries) st.cache .kpis = none →
      loadDashboardKPIsWithRetry outcomes maxRetries st =
        ({ st with
            fetchCount := st.fetchCount + maxRetries,
            now := st.now + delaysUpTo maxRetries },
         Except.error (kpisFailMsg (outcomes maxRetries))))
    ∧ (∀ (outcomes : Nat → FetchOutcome) (maxRetries : Nat) (st : DashState),
      1 ≤ maxRetries →
      (∀ k, 1 ≤ k → k ≤ maxRetries → chartsSuccess (outcomes k) = false) →
      cacheGet (st.now + delaysUpTo maxRetries) st.cache .charts = none →
      loadDashboardChartsWithRetry outcomes maxRetries st =
        ({ st with
            fetchCount := st.fetchCount + maxRetries,
            now := st.now + delaysUpTo maxRetries,
            emptyChartsCalls := st.emptyChartsCalls + 1 },
         Except.error (chartsFailMsg (outcomes maxRetries))))
    ∧ (∀ (outcomes : Nat → FetchOutcome) (maxRetries : Nat) (st : DashState),
      1 ≤ maxRetries →
      (∀ k, 1 ≤ k → k ≤ maxRetries → operationsSuccess (outcomes k) = false) →
      cacheGet (st.now + delaysUpTo maxRetries) st.cache .operations = none →
      loadRecentOperationsWithRetry outcomes maxRetries st =
        ({ st with
            fetchCount := st.fetchCount + maxRetries,
            now := st.now + delaysUpTo maxRetries,
            uiOperations := st.uiOperations ++ [emptyOperationsValue] },
         Except.error (operationsFailMsg (outcomes maxRetries))))
    ∧ (∀ (outcomes : Nat → FetchOutcome) (maxRetries : Nat) (st : DashState),
      1 ≤ maxRetries →
      (∀ k, 1 ≤ k → k ≤ maxRetries → filterOptionsSuccess (outcomes k) = false) →
      cacheGet (st.now + delaysUpTo maxRetries) st.cache .filterOptions = none →
      loadFilterOptionsWithRetry outcomes maxRetries st =
        ({ st with
            fetchCount := st.fetchCount + maxRetries,
            now := st.now + delaysUpTo maxRetries,
            uiFilterOptions := st.uiFilterOptions ++ [emptyFilterOptionsValue] },
         Except.error (filterOptionsFailMsg (outcomes maxRetries)))) := by
  refine ⟨?_, ?_, ?_, ?_, ?_, ?_, ?_, ?_, ?_, ?_, ?_, ?_⟩
  · intro o mr N r st h1 h2 hs hr hf
    exact (loadKPIsGo_success o mr N r h2 hs hr hf mr 1 st (by omega) (by omega) h1).trans
      (by rw [show delaysUpTo 1 = 0 from rfl, Nat.sub_zero, Nat.add_sub_cancel])
  · intro o mr N r st h1 h2 hs hr hf
    exact (loadChartsGo_success o mr N r h2 hs hr hf mr 1 st (by omega) (by omega) h1).trans
      (by rw [show delaysUpTo 1 = 0 from rfl, Nat.sub_zero, Nat.add_sub_cancel])
  · intro o mr N r st h1 h2 hs hr hf
    exact (loadOperationsGo_success o mr N r h2 hs hr hf mr 1 st (by omega) (by omega) h1).trans
      (by rw [show delaysUpTo 1 = 0 from rfl, Nat.sub_zero, Nat.add_sub_cancel])
  · intro o mr N r st h1 h2 hs hr hf
    exact (loadFilterOptionsGo_success o mr N r h2 hs hr hf mr 1 st (by omega) (by omega)
      h1).trans
      (by rw [show delaysUpTo 1 = 0 from rfl, Nat.sub_zero, Nat.add_sub_cancel])
  · intro o mr st v h1 hf hc
    exact (loadKPIsGo_allFail o mr hf mr 1 st (by omega) (by omega) h1).trans
      (by rw [show delaysUpTo 1 = 0 from rfl, Nat.sub_zero, Nat.add_sub_cancel, hc])
  · intro o mr st v h1 hf hc
    exact (loadChartsGo_allFail o mr hf mr 1 st (by omega) (by omega) h1).trans
      (by rw [show delaysUpTo 1 = 0 from rfl, Nat.sub_zero, Nat.add_sub_cancel, hc])
  · intro o mr st v h1 hf hc
    exact (loadOperationsGo_allFail o mr hf mr 1 st (by omega) (by omega) h1).trans
      (by rw [show delaysUpTo 1 = 0 from rfl, Nat.sub_zero, Nat.add_sub_cancel, hc])
  · intro o mr st v h1 hf hc
    exact (loadFilterOptionsGo_allFail o mr hf mr 1 st (by omega) (by omega) h1).trans
      (by rw [show delaysUpTo 1 = 0 from rfl, Nat.sub_zero, Nat.add_sub_cancel, hc])
  · intro o mr st h1 hf hc
    exact (loadKPIsGo_allFail o mr hf mr 1 st (by omega) (by omega) h1).trans
      (by rw [show delaysUpTo 1 = 0 from rfl, Nat.sub_zero, Nat.add_sub_cancel, hc])
  · intro o mr st h1 hf hc
    exact (loadChartsGo_allFail o mr hf mr 1 st (by omega) (by omega) h1).trans
      (by rw [show delaysUpTo 1 = 0 from rfl, Nat.sub_zero, Nat.add_sub_cancel, hc])
  · intro o mr st h1 hf hc
    exact (loadOperationsGo_allFail o mr hf mr 1 st (by omega) (by omega) h1).trans
      (by rw [show delaysUpTo 1 = 0 from rfl, Nat.sub_zero, Nat.add_sub_cancel, hc])
  · intro o mr st h1 hf hc
    exact (loadFilterOptionsGo_allFail o mr hf mr 1 st (by omega) (by omega) h1).trans
      (by rw [show delaysUpTo 1 = 0 from rfl, Nat.sub_zero, Nat.add_sub_cancel, hc])

/-- Witness for C2: a KPIs resource that fails once and succeeds on the
second of two attempts leads to the success value being cached and applied
after exactly two fetches; an always-failing charts resource with an empty
cache leads to one `createEmptyCharts()` call and a propagated error. -/
theorem c2_retry_loaders_witness :
    loadDashboardKPIsWithRetry
        (fun k => if k = 2 then .ok { success := .vBool true, kpis := .vObj "K" }
          else .exn "net") 2 {} =
      ({ cache := cacheSet cacheInit .kpis (.vObj "K") 1000, now := 1000, fetchCount := 2,
          uiKpis := [.vObj "K"] },
       Except.ok ())
    ∧ loadDashboardChartsWithRetry (fun _ => .exn "net") 2 {} =
      ({ cache := cacheInit, now := 1000, fetchCount := 2, emptyChartsCalls := 1 },
       Except.error "net") := by
  obtain ⟨hk, -, -, -, -, -, -, -, -, hch, -, -⟩ := c2_retry_loaders
  constructor
  · have h := hk (fun k => if k = 2 then .ok { success := .vBool true, kpis := .vObj "K" }
      else .exn "net") 2 2 { success := .vBool true, kpis := .vObj "K" } {}
      (by omega) (by omega) (by decide) (by decide)
      (fun k hk1 hk2 => by
        have : k = 1 := by omega
        subst this
        decide)
    exact h.trans (by decide)
  · have h := hch (fun _ => .exn "net") 2 {} (by omega)
      (fun _ _ _ => rfl) (by decide)
    exact h.trans (by decide)

/-- C3: the request-de-duplication bookkeeping and its interaction with the
retry loop, evaluated at the failing input.  Two consecutive
`fetchWithAbort` calls for the key `kpis` abort the first request's
controller and leave the second registered — but an aborted fetch rejects
into the loader's generic `catch`, so the cancellation consumes the retry
budget like any failure: an always-aborted KPIs loader performs both
attempts and propagates `AbortError` (empty cache), and with a cached value
present the cancellation even triggers the cache fallback. -/
theorem c3_abort_counted_as_failure :
    (fetchWithAbort "kpis" (fetchWithAbort "kpis" {}).1).1.aborted =
        [(fetchWithAbort "kpis" {}).2]
    ∧ lookupController (fetchWithAbort "kpis" (fetchWithAbort "kpis" {}).1).1 "kpis" =
        some (fetchWithAbort "kpis" (fetchWithAbort "kpis" {}).1).2
    ∧ (loadDashboardKPIsWithRetry (fun _ => .exn "AbortError") 2 {}).1.fetchCount = 2
    ∧ (loadDashboardKPIsWithRetry (fun _ => .exn "AbortError") 2 {}).2 =
        Except.error "AbortError"
    ∧ (loadDashboardKPIsWithRetry (fun _ => .exn "AbortError") 2
        { cache := { cacheInit with kpis := .vObj "K", lastUpdate := some 0 } }).1.uiKpis =
      [.vObj "K"] := by
  decide

end DashboardExec
